import Mathlib

/-!
Verification development for the battlesnake engine core: the redis-backed
game store (`controller/redis/redis.go`) and the per-tick simulation
(`rules` package).  Go code is shallowly embedded: the redis server state
is explicit, pointers become positional indices, machine integers become
`Int` (overflow is irrelevant at the grid sizes and counters involved),
and fallible calls return `Except`/`Option`.
-/

set_option autoImplicit false

deriving instance DecidableEq for Except

/-! ## Store model (controller/redis/redis.go)

The redis server is modelled as explicit state: an association list of lock
entries (value plus the TTL it was set with) and an association list of
redis lists holding opaque serialized payloads.  External library semantics
are modelled from their documentation: `SetNX`/`Get` inside a `TxPipeline`
act atomically; `RPush` replies with the length of the list after the push;
a Lua script returning `false` produces a redis nil reply, which go-redis
surfaces as the `redis.Nil` error; `github.com/pkg/errors.Wrap` returns nil
when the wrapped error is nil.
-/

/-- Error sentinels and wrapped backend errors surfaced by the store. -/
inductive StoreError where
  | isLocked
  | notFound
  | invalidLimit (limit : Int)
  | wrapped (msg : String)
  deriving DecidableEq

/-- A redis string entry used as a lock: the held token plus the TTL
(seconds) it was created with. -/
structure LockEntry where
  token : String
  ttlSeconds : Nat
  deriving DecidableEq

/-- The modelled redis server state: lock keys and list keys. -/
structure RedisState where
  locks : List (String × LockEntry)
  lists : List (String × List String)
  deriving DecidableEq

/-- Lookup in an association list (first match wins). -/
def assocGet {α : Type} (l : List (String × α)) (k : String) : Option α :=
  (l.find? (fun p => p.1 == k)).map Prod.snd

/-- Insert or replace in an association list. -/
def assocSet {α : Type} : List (String × α) → String → α → List (String × α)
  | [], k, v => [(k, v)]
  | p :: rest, k, v => if p.1 == k then (k, v) :: rest else p :: assocSet rest k v

/-- Delete a key from an association list. -/
def assocDel {α : Type} (l : List (String × α)) (k : String) : List (String × α) :=
  l.filter (fun p => p.1 != k)

/-- Embedding of `gameKey` from redis.go: redis key for a game's state. -/
def gameKey (gameID : String) : String :=
  "games:" ++ gameID ++ ":state"

/-- Embedding of `framesKey` from redis.go: redis key for a game's frame log. -/
def framesKey (gameID : String) : String :=
  "games:" ++ gameID ++ ":frames"

/-- Embedding of `gameLockKey` from redis.go: redis key for a game's lock. -/
def gameLockKey (gameID : String) : String :=
  "games:" ++ gameID ++ ":lock"

/-- Embedding of `Store.Lock` from redis.go.  `fresh` stands for the token produced by
`uuid.NewV4()` when the caller passes an empty token.  The `TxPipeline`
runs `SetNX(key, tok, time.Minute)` followed by `Get(key)` atomically; the
call succeeds when the `SetNX` created the entry or the read-back token
equals the caller's token, and fails with `ErrIsLocked` otherwise. -/
def Lock (st : RedisState) (key token fresh : String) :
    RedisState × Except StoreError String :=
  let tok := if token = "" then fresh else token
  match assocGet st.locks (gameLockKey key) with
  | none =>
      ({ st with locks := assocSet st.locks (gameLockKey key)
                  { token := tok, ttlSeconds := 60 } },
       Except.ok tok)
  | some e =>
      if tok = e.token then (st, Except.ok e.token)
      else (st, Except.error StoreError.isLocked)

/-- Embedding of `UnlockCmd` from redis.go, the Lua script
`if GET(KEYS[1]) == ARGV[1] then DEL(KEYS[1]); return true end; return false`.
Lua `true` converts to the redis integer reply 1 (`some 1`); Lua `false`
converts to a redis nil reply (`none`), which go-redis reports as the
`redis.Nil` error. -/
def UnlockCmdRun (st : RedisState) (key tok : String) : RedisState × Option Int :=
  match assocGet st.locks key with
  | some e =>
      if e.token = tok then ({ st with locks := assocDel st.locks key }, some 1)
      else (st, none)
  | none => (st, none)

/-- Embedding of `Store.Unlock` from redis.go.  An empty token is rejected with
`ErrNotFound`; otherwise the compare-and-delete script runs, a non-`1`
reply yields `ErrNotFound`, and a redis error (including the `redis.Nil`
produced by the script's `false` reply) is wrapped and returned. -/
def Unlock (st : RedisState) (id token : String) : RedisState × Option StoreError :=
  if token = "" then (st, some StoreError.notFound)
  else
    match UnlockCmdRun st (gameLockKey id) token with
    | (st2, some r) =>
        if r ≠ 1 then (st2, some StoreError.notFound) else (st2, none)
    | (st2, none) =>
        (st2, some (StoreError.wrapped "unexpected redis error during unlock"))

/-- Model of `github.com/pkg/errors.Wrap`: returns nil when `e` is nil, otherwise a
new error annotating `e` with `msg`. -/
def errorsWrap (e : Option String) (msg : String) : Option String :=
  match e with
  | none => none
  | some s => some (msg ++ ": " ++ s)

/-- Embedding of `Store.PushGameFrame` from redis.go.  `marshalResult` is the outcome of
`proto.Marshal(t)`.  `RPush` replies with the length of the list after the
push (modelled from the redis documentation), which the code binds to
`numAdded`; at that point the transport error `err` is nil, so the
`numAdded != 1` branch returns `errors.Wrap(nil, ...)`. -/
def PushGameFrame (st : RedisState) (id : String)
    (marshalResult : Except String String) : RedisState × Option String :=
  match marshalResult with
  | Except.error e => (st, errorsWrap (some e) "frame marshalling error")
  | Except.ok bytes =>
      let newList := (assocGet st.lists (framesKey id)).getD [] ++ [bytes]
      let st2 := { st with lists := assocSet st.lists (framesKey id) newList }
      let numAdded := newList.length
      if numAdded ≠ 1 then (st2, errorsWrap none "unexpected redis result")
      else (st2, none)

/-- Redis `LRANGE`: negative indices count from the end (`-1` is the last
element), both endpoints are inclusive, and out-of-range endpoints are
clamped. -/
def lrange {α : Type} (l : List α) (start stop : Int) : List α :=
  let n : Int := l.length
  let s := if start < 0 then max (n + start) 0 else start
  let e := min (if stop < 0 then n + stop else stop) (n - 1)
  if s > e then [] else (l.drop s.toNat).take (e - s + 1).toNat

/-- Embedding of `Store.ListGameFrames` from redis.go.  A non-positive limit is an
invalid-argument error; otherwise `LRANGE(framesKey id, offset, end)` is
read with `end = limit + offset`, decremented when `offset ≤ 0`.  The
stored payloads are returned as-is (deserialization of payloads produced
by `proto.Marshal` succeeds and is treated as opaque here). -/
def ListGameFrames (st : RedisState) (id : String) (limit offset : Int) :
    Except StoreError (List String) :=
  if limit ≤ 0 then Except.error (StoreError.invalidLimit limit)
  else
    let start := offset
    let stop := if offset ≤ 0 then limit + offset - 1 else limit + offset
    Except.ok (lrange ((assocGet st.lists (framesKey id)).getD []) start stop)

/-! ## Tick engine model (rules package)

The `pb` data types and a few of their methods (`Point.Equal`,
`Snake.Head`, `Snake.Move`, `Snake.DefaultMove`, `GameFrame.AliveSnakes`),
together with `checkForDeath` and `GatherSnakeMoves`, are repository code
that is not under `src/`; they are modelled from the spec below and
marked as such.  Go pointers into the snakes slice become positional
indices; mutation of a pointed-to snake becomes replacement at that index.
`GatherSnakeMoves` is external, so the gathered moves are an input: a list
of `(index, move result)` pairs, `none` standing for a `SnakeUpdate`
carrying an error (the code then applies `DefaultMove`).
-/

/-- Modelled from the spec: `pb.Point`, an integer coordinate on a bounded
grid; equality (`pb.Point.Equal`) is value equality. -/
structure Point where
  x : Int
  y : Int
  deriving DecidableEq

/-- Modelled from the spec: the death causes recorded by death detection —
starvation, out-of-bounds head, and snake-vs-snake body collision. -/
inductive DeathCause where
  | starvation
  | wall
  | collision
  deriving DecidableEq

/-- Modelled from the spec: `pb.Death`, a terminal death cause recorded
with the turn on which it was detected. -/
structure Death where
  turn : Int
  cause : DeathCause
  deriving DecidableEq

/-- Modelled from the spec: `pb.Snake` — identity, ordered body from head
(index 0) to tail, integer health, optional terminal death cause. -/
structure Snake where
  id : String
  name : String
  body : List Point
  health : Int
  death : Option Death
  deriving DecidableEq

/-- Modelled from the spec: `pb.Game`, the static per-match
configuration. -/
structure Game where
  id : String
  width : Int
  height : Int
  snakeTimeout : Int
  deriving DecidableEq

/-- Modelled from the spec: `pb.GameFrame` — turn number, snakes, and the
food points present at the end of that turn. -/
structure GameFrame where
  turn : Int
  snakes : List Snake
  food : List Point
  deriving DecidableEq

/-- A move direction proposed for a snake. -/
inductive Direction where
  | up
  | down
  | left
  | right
  deriving DecidableEq

/-- Modelled from the spec: `pb.Snake.Head`, the body point at index 0
(none for an empty body). -/
def Snake.headPoint (s : Snake) : Option Point :=
  s.body.head?

/-- Advance a point one cell in a direction (the exact axis convention is
irrelevant to the claims; each direction changes one coordinate by 1). -/
def movePoint (p : Point) : Direction → Point
  | Direction.up => { p with y := p.y - 1 }
  | Direction.down => { p with y := p.y + 1 }
  | Direction.left => { p with x := p.x - 1 }
  | Direction.right => { p with x := p.x + 1 }

/-- Modelled from the spec: `pb.Snake.Move` — the directional move
advances the body by inserting a new head; tail dynamics are resolved
later (step 5).  An empty body is a defensive no-op. -/
def Snake.move (s : Snake) (d : Direction) : Snake :=
  match s.body with
  | [] => s
  | hd :: _ => { s with body := movePoint hd d :: s.body }

/-- Modelled from the spec: `pb.Snake.DefaultMove`, the deterministic
fallback applied when no move was gathered; the spec leaves the direction
rule open, so a fixed direction is used. -/
def Snake.defaultMove (s : Snake) : Snake :=
  s.move Direction.up

/-- Alive snakes of a snake list: those with no recorded death cause
(`pb.GameFrame.AliveSnakes`, modelled from the spec). -/
def aliveList (snakes : List Snake) : List Snake :=
  snakes.filter (fun s => s.death.isNone)

/-- Modelled from the spec: `pb.GameFrame.AliveSnakes`. -/
def GameFrame.aliveSnakes (f : GameFrame) : List Snake :=
  aliveList f.snakes

/-- Replace the element at index `i` by its image under `g` (the model of
mutating through a Go pointer to the `i`-th snake). -/
def modifyAt {α : Type} : List α → Nat → (α → α) → List α
  | [], _, _ => []
  | a :: rest, 0, g => g a :: rest
  | a :: rest, Nat.succ i, g => a :: modifyAt rest i g

/-- Fold a list of updates over a list, each update mutating the element
its index points at. -/
def foldModify {α β : Type} (l : List α) (us : List β) (idx : β → Nat) (g : β → α → α) :
    List α :=
  us.foldl (fun acc u => modifyAt acc (idx u) (g u)) l

/-- The move applied for one `SnakeUpdate`: `Snake.Move` on a gathered
move, `Snake.DefaultMove` when the update carries an error. -/
def applyMove (mv : Option Direction) (s : Snake) : Snake :=
  match mv with
  | some d => s.move d
  | none => s.defaultMove

/-- Embedding of `updateSnakes` from the rules package: apply each gathered
`SnakeUpdate` to the snake it points at. -/
def updateSnakes (snakes : List Snake) (moves : List (Nat × Option Direction)) :
    List Snake :=
  foldModify snakes moves Prod.fst (fun u => applyMove u.2)

/-- Modelled from the spec: the collision half of `checkForDeath` (not
under `src/`) — the head collides when it lies on an alive snake's body,
where for the snake itself only segments behind the head count
(self-collision). -/
def collidesAux (hd : Point) (i : Nat) : Nat → List Snake → Bool
  | _, [] => false
  | j, t :: rest =>
      (t.death.isNone &&
        (if j = i then (t.body.drop 1).any (fun p => p == hd)
         else t.body.any (fun p => p == hd))) ||
      collidesAux hd i (j + 1) rest

/-- Modelled from the spec: the causes `checkForDeath` (not under `src/`)
detects for one alive snake, in the spec's order — starvation
(health ≤ 0), out-of-bounds head, body collision. -/
def deathCauses (width height : Int) (frame : GameFrame) (i : Nat) (s : Snake) :
    List Death :=
  (if s.health ≤ 0 then [{ turn := frame.turn, cause := DeathCause.starvation }] else []) ++
  (match s.body.head? with
   | some hd =>
       (if hd.x < 0 ∨ hd.x ≥ width ∨ hd.y < 0 ∨ hd.y ≥ height then
          [{ turn := frame.turn, cause := DeathCause.wall }] else []) ++
       (if collidesAux hd i 0 frame.snakes then
          [{ turn := frame.turn, cause := DeathCause.collision }] else [])
   | none => [])

/-- Modelled from the spec: `checkForDeath` (not under `src/`) — scan the
post-move frame's alive snakes and report one update per detected cause,
each pointing at the snake it concerns. -/
def checkForDeathAux (width height : Int) (frame : GameFrame) :
    Nat → List Snake → List (Nat × Death)
  | _, [] => []
  | i, s :: rest =>
      (if s.death = none then (deathCauses width height frame i s).map (fun d => (i, d))
       else []) ++
      checkForDeathAux width height frame (i + 1) rest

/-- Modelled from the spec: `checkForDeath` (not under `src/`). -/
def checkForDeath (width height : Int) (frame : GameFrame) : List (Nat × Death) :=
  checkForDeathAux width height frame 0 frame.snakes

/-- The effect of one death update on the snake it points at: record the
cause only if the snake has no death cause yet. -/
def markOne (u : Nat × Death) (s : Snake) : Snake :=
  if s.death = none then { s with death := some u.2 } else s

/-- The death-marking loop of `GameTick`: for each death update, record
the cause on the snake it points at only if the snake has no death cause
yet. -/
def applyDeathUpdates (snakes : List Snake) (dus : List (Nat × Death)) : List Snake :=
  foldModify snakes dus Prod.fst markOne

/-- One snake's health decay: an alive snake loses one health point, a
dead one is untouched (`GameTick` iterates `AliveSnakes` and mutates in
place, which is this guarded map over the shared snake list). -/
def decayOne (s : Snake) : Snake :=
  if s.death = none then { s with health := s.health - 1 } else s

/-- The health-decay loop of `GameTick`. -/
def reduceHealth (snakes : List Snake) : List Snake :=
  snakes.map decayOne

/-- One alive snake's step of `checkForSnakesEating`: if some food point
equals the head, health resets to 100 and those food points are marked
for removal; otherwise the tail segment is dropped (empty bodies are
skipped).  Dead snakes are untouched. -/
def eatOne (food : List Point) (s : Snake) : Snake × List Point :=
  if s.death = none then
    match s.body.head? with
    | some hd =>
        if (food.filter (fun f => hd == f)).isEmpty then
          ({ s with body := s.body.dropLast }, [])
        else ({ s with health := 100 }, food.filter (fun f => hd == f))
    | none => (s, [])
  else (s, [])

/-- Embedding of `checkForSnakesEating` from the rules package: returns the updated
snakes and the food points to remove, in alive-snake order. -/
def checkForSnakesEating (frame : GameFrame) : List Snake × List Point :=
  (frame.snakes.map (fun s => (eatOne frame.food s).1),
   (frame.snakes.map (fun s => (eatOne frame.food s).2)).flatten)

/-- Embedding of `getUniqOccupiedPoints` from the rules package: food points then snake
body points, deduplicated by value equality. -/
def addUniq (acc : List Point) (p : Point) : List Point :=
  if acc.any (fun o => o == p) then acc else acc ++ [p]

/-- Embedding of `getUniqOccupiedPoints` from the rules package. -/
def getUniqOccupiedPoints (food : List Point) (snakes : List Snake) : List Point :=
  snakes.foldl (fun acc s => s.body.foldl addUniq acc) (food.foldl addUniq [])

/-- The grid cells enumerated by `getUnoccupiedPoints` (x outer, y
inner). -/
def gridPoints (width height : Int) : List Point :=
  (List.range width.toNat).flatMap
    (fun x => (List.range height.toNat).map
      (fun (y : Nat) => { x := (x : Int), y := (y : Int) }))

/-- Embedding of `getUnoccupiedPoints` from the rules package: every grid cell that
equals no occupied point. -/
def getUnoccupiedPoints (width height : Int) (food : List Point) (snakes : List Snake) :
    List Point :=
  let occupied := getUniqOccupiedPoints food snakes
  (gridPoints width height).filter (fun p => !occupied.any (fun o => o == p))

/-- Embedding of `getUnoccupiedPoint` from the rules package: none when no cell is
open, otherwise the cell at the random index (`rand.Intn` guarantees an
in-range index, modelled by reducing `r` modulo the candidate count). -/
def getUnoccupiedPoint (width height : Int) (food : List Point) (snakes : List Snake)
    (r : Nat) : Option Point :=
  let pts := getUnoccupiedPoints width height food snakes
  if pts.isEmpty then none else pts.get? (r % pts.length)

/-- Embedding of `updateFood` from the rules package, called by `GameTick` with the
*previous* frame: keep the food points not removed, then for each removed
point spawn one replacement from the unoccupied cells of the previous
frame's food and the (shared, already mutated) alive snakes; a `nil`
replacement is skipped silently.  `rand` supplies the `k`-th call's random
value. -/
def updateFood (width height : Int) (gameFrame : GameFrame) (foodToRemove : List Point)
    (rand : Nat → Nat) : List Point :=
  let kept := gameFrame.food.filter (fun f => !foodToRemove.any (fun r => f == r))
  let spawned := (List.range foodToRemove.length).filterMap
    (fun k => getUnoccupiedPoint width height gameFrame.food gameFrame.aliveSnakes (rand k))
  kept ++ spawned

/-- Embedding of `GameTick` from the rules package, for a non-nil previous frame.  The
next frame shares the previous frame's snakes slice; every mutation acts
on the shared snakes, so the pair returned is (next frame, the previous
frame as observable after the call).  Order: move application, death
detection, death marking (first cause wins), health decay of alive
snakes, feeding/shrinking, food removal and respawn. -/
def gameTickCore (game : Game) (lastFrame : GameFrame)
    (moves : List (Nat × Option Direction)) (rand : Nat → Nat) : GameFrame × GameFrame :=
  let turn := lastFrame.turn + 1
  let snakes1 := updateSnakes lastFrame.snakes moves
  let dus := checkForDeath game.width game.height
    { turn := turn, snakes := snakes1, food := lastFrame.food }
  let snakes2 := applyDeathUpdates snakes1 dus
  let snakes3 := reduceHealth snakes2
  let eat := checkForSnakesEating { turn := turn, snakes := snakes3, food := lastFrame.food }
  let nextFood := updateFood game.width game.height
    { turn := turn, snakes := eat.1, food := lastFrame.food } eat.2 rand
  ({ turn := turn, snakes := eat.1, food := nextFood },
   { turn := lastFrame.turn, snakes := eat.1, food := lastFrame.food })

/-- Embedding of `GameTick` from the rules package: fails on a nil previous frame,
otherwise runs the tick. -/
def GameTick (game : Game) (lastFrame : Option GameFrame)
    (moves : List (Nat × Option Direction)) (rand : Nat → Nat) :
    Except String (GameFrame × GameFrame) :=
  match lastFrame with
  | none => Except.error "rules: invalid state, previous frame is nil"
  | some f => Except.ok (gameTickCore game f moves rand)

/-! ## Store lemmas and claims C1-C4 -/

theorem lrange_nonneg {α : Type} (l : List α) (start stop : Int)
    (h0 : 0 ≤ start) (h1 : start ≤ stop) (h2 : stop < l.length) :
    lrange l start stop = (l.drop start.toNat).take (stop - start + 1).toNat := by
  have hs : ¬ (start < 0) := by omega
  have ht : ¬ (stop < 0) := by omega
  simp only [lrange, if_neg hs, if_neg ht]
  rw [min_eq_left (by omega), if_neg (by omega)]

theorem lrange_neg {α : Type} (l : List α) (start stop : Int)
    (h0 : start < 0) (h1 : stop < 0) (h2 : 0 ≤ (l.length : Int) + start)
    (h3 : start ≤ stop) :
    lrange l start stop =
      (l.drop ((l.length : Int) + start).toNat).take (stop - start + 1).toNat := by
  simp only [lrange, if_pos h0, if_pos h1]
  rw [max_eq_left h2, min_eq_left (by omega), if_neg (by omega)]
  congr 1
  omega

theorem length_drop_take {α : Type} (l : List α) (a b : Nat) :
    ((l.drop a).take b).length = min b (l.length - a) := by
  simp

/-- C1: `Lock` generates a fresh token when the caller's token is empty
(`fresh` models the `uuid.NewV4()` output); when the lock entry for the
game is absent it atomically creates the entry with the fixed 60 second
expiry and succeeds returning the token; when the entry exists and the
holder's token equals the effective caller token it succeeds returning
that token; otherwise it fails with `ErrIsLocked`, leaving the state
unchanged. -/
theorem lock_semantics (st : RedisState) (key token fresh : String) :
    (assocGet st.locks (gameLockKey key) = none →
      Lock st key token fresh =
        ({ st with locks := assocSet st.locks (gameLockKey key)
                      ({ token := if token = "" then fresh else token,
                         ttlSeconds := 60 } : LockEntry) },
         Except.ok (if token = "" then fresh else token))) ∧
    (∀ e, assocGet st.locks (gameLockKey key) = some e →
      e.token = (if token = "" then fresh else token) →
      Lock st key token fresh = (st, Except.ok (if token = "" then fresh else token))) ∧
    (∀ e, assocGet st.locks (gameLockKey key) = some e →
      e.token ≠ (if token = "" then fresh else token) →
      Lock st key token fresh = (st, Except.error StoreError.isLocked)) := by
  refine ⟨fun h => ?_, fun e h he => ?_, fun e h he => ?_⟩
  · simp [Lock, h]
  · simp [Lock, h, he]
  · simp only [Lock, h]
    rw [if_neg (fun hc => he hc.symm)]

theorem lock_semantics_witness :
    (Lock { locks := [], lists := [] } "g" "" "t" =
      ({ locks := [(gameLockKey "g", { token := "t", ttlSeconds := 60 })], lists := [] },
       Except.ok "t")) ∧
    (Lock { locks := [(gameLockKey "g", { token := "t", ttlSeconds := 60 })], lists := [] }
        "g" "t" "u" =
      ({ locks := [(gameLockKey "g", { token := "t", ttlSeconds := 60 })], lists := [] },
       Except.ok "t")) ∧
    (Lock { locks := [(gameLockKey "g", { token := "t", ttlSeconds := 60 })], lists := [] }
        "g" "x" "u" =
      ({ locks := [(gameLockKey "g", { token := "t", ttlSeconds := 60 })], lists := [] },
       Except.error StoreError.isLocked)) := by
  refine ⟨(lock_semantics _ "g" "" "t").1 (by decide), ?_, ?_⟩
  · exact (lock_semantics _ "g" "t" "u").2.1 { token := "t", ttlSeconds := 60 }
      (by decide) (by decide)
  · exact (lock_semantics _ "g" "x" "u").2.2 { token := "t", ttlSeconds := 60 }
      (by decide) (by decide)

/-- C2: evaluation of `Unlock` at the failing input.  With the lock for
game `g` held by token `a`: an empty token fails with `ErrNotFound`; the
matching token deletes the lock and succeeds; a *wrong* token leaves the
lock intact (a subsequent `Lock` by the holder still succeeds) but reports
the wrapped `redis.Nil` transport error — the Lua script's `return false`
converts to a redis nil reply — rather than the `ErrNotFound` the claim
and the code's own comment (`UnlockCmd returns a 1 if key was found`)
describe. -/
theorem unlock_wrong_token_behavior :
    (Unlock { locks := [(gameLockKey "g", { token := "a", ttlSeconds := 60 })], lists := [] }
        "g" "" =
      ({ locks := [(gameLockKey "g", { token := "a", ttlSeconds := 60 })], lists := [] },
       some StoreError.notFound)) ∧
    (Unlock { locks := [(gameLockKey "g", { token := "a", ttlSeconds := 60 })], lists := [] }
        "g" "a" =
      ({ locks := [], lists := [] }, none)) ∧
    (Unlock { locks := [(gameLockKey "g", { token := "a", ttlSeconds := 60 })], lists := [] }
        "g" "b" =
      ({ locks := [(gameLockKey "g", { token := "a", ttlSeconds := 60 })], lists := [] },
       some (StoreError.wrapped "unexpected redis error during unlock"))) ∧
    (Lock { locks := [(gameLockKey "g", { token := "a", ttlSeconds := 60 })], lists := [] }
        "g" "a" "f" =
      ({ locks := [(gameLockKey "g", { token := "a", ttlSeconds := 60 })], lists := [] },
       Except.ok "a")) := by
  decide

/-- C3: evaluation of `PushGameFrame` at the failing input.  Pushing to an
empty log succeeds (`RPush` replies 1).  Pushing a second frame makes
`RPush` reply 2 — the list length, not the number of elements added — so
the `numAdded != 1` branch is taken, but it returns `errors.Wrap(nil, ...)`
which is nil: the call reports success (`none`) where the claim requires a
non-nil wrapped error.  A serialization failure is wrapped and returned as
the claim states. -/
theorem pushGameFrame_swallows_count_error :
    (PushGameFrame { locks := [], lists := [] } "g" (Except.ok "f1") =
      ({ locks := [], lists := [(framesKey "g", ["f1"])] }, none)) ∧
    (PushGameFrame { locks := [], lists := [(framesKey "g", ["f1"])] } "g" (Except.ok "f2") =
      ({ locks := [], lists := [(framesKey "g", ["f1", "f2"])] }, none)) ∧
    (PushGameFrame { locks := [], lists := [(framesKey "g", ["f1"])] } "g"
        (Except.error "boom") =
      ({ locks := [], lists := [(framesKey "g", ["f1"])] },
       some "frame marshalling error: boom")) := by
  decide

/-- C4 counterexample: with 5 frames stored, `limit = 2` and the positive
offset 1 return the three frames at positions 1, 2 and 3 — not exactly
`limit` frames (the window `[1, 3)`, i.e. positions 1 and 2) as the claim
states for every offset. -/
theorem listGameFrames_positive_offset_excess :
    (ListGameFrames { locks := [], lists := [(framesKey "g", ["a", "b", "c", "d", "e"])] }
        "g" 2 1 = Except.ok ["b", "c", "d"]) ∧
    ¬ (ListGameFrames { locks := [], lists := [(framesKey "g", ["a", "b", "c", "d", "e"])] }
        "g" 2 1 = Except.ok ["b", "c"]) := by
  decide

/-- C4 (amended): `ListGameFrames` fails with an invalid-argument error
when `limit ≤ 0`.  For `offset = 0` it returns exactly the first `limit`
frames when that many exist, and for negative `offset` with
`limit ≤ -offset ≤ n` it returns exactly the `limit` frames starting at
zero-based position `n + offset` (so 5 frames, `limit = 2`, `offset = -2`
give positions 3 and 4).  For a *positive* offset the retrieved window is
`[offset, offset + limit]` inclusive, so `limit + 1` frames are returned
when that many are available. -/
theorem listGameFrames_window (st : RedisState) (id : String) (limit offset : Int) :
    (limit ≤ 0 →
      ListGameFrames st id limit offset = Except.error (StoreError.invalidLimit limit)) ∧
    (∀ frames : List String, frames = (assocGet st.lists (framesKey id)).getD [] →
      0 < limit →
      ((offset = 0 → limit ≤ (frames.length : Int) →
          ListGameFrames st id limit offset = Except.ok (frames.take limit.toNat) ∧
          (frames.take limit.toNat).length = limit.toNat) ∧
       (offset < 0 → 0 ≤ (frames.length : Int) + offset → limit ≤ -offset →
          ListGameFrames st id limit offset =
            Except.ok ((frames.drop ((frames.length : Int) + offset).toNat).take limit.toNat) ∧
          ((frames.drop ((frames.length : Int) + offset).toNat).take limit.toNat).length
            = limit.toNat) ∧
       (0 < offset → offset + limit < (frames.length : Int) →
          ∃ res, ListGameFrames st id limit offset = Except.ok res ∧
            res.length = limit.toNat + 1))) := by
  constructor
  · intro h
    simp [ListGameFrames, if_pos h]
  · rintro frames rfl hlim
    refine ⟨fun hoff hlen => ?_, fun hoff hge hle => ?_, fun hoff hlen => ?_⟩
    · subst hoff
      rw [ListGameFrames, if_neg (by omega)]
      simp only [if_pos (le_refl (0 : Int))]
      rw [lrange_nonneg _ _ _ (by omega) (by omega) (by omega)]
      constructor
      · congr 2
        omega
      · rw [List.length_take]
        omega
    · rw [ListGameFrames, if_neg (by omega)]
      simp only [if_pos (by omega : offset ≤ 0)]
      rw [lrange_neg _ _ _ (by omega) (by omega) (by omega) (by omega)]
      constructor
      · congr 2
        omega
      · rw [length_drop_take]
        omega
    · rw [ListGameFrames, if_neg (by omega)]
      simp only [if_neg (by omega : ¬ offset ≤ 0)]
      rw [lrange_nonneg _ _ _ (by omega) (by omega) (by omega)]
      refine ⟨_, rfl, ?_⟩
      rw [length_drop_take]
      omega

theorem listGameFrames_window_witness :
    (ListGameFrames { locks := [], lists := [(framesKey "g", ["a", "b", "c", "d", "e"])] }
        "g" 0 0 = Except.error (StoreError.invalidLimit 0)) ∧
    (ListGameFrames { locks := [], lists := [(framesKey "g", ["a", "b", "c", "d", "e"])] }
        "g" 2 (-2) = Except.ok ["d", "e"]) ∧
    (∃ res, ListGameFrames { locks := [], lists := [(framesKey "g", ["a", "b", "c", "d", "e"])] }
        "g" 2 1 = Except.ok res ∧ res.length = (2 : Int).toNat + 1) := by
  refine ⟨(listGameFrames_window _ "g" 0 0).1 (by decide), ?_, ?_⟩
  · have h := (((listGameFrames_window
        { locks := [], lists := [(framesKey "g", ["a", "b", "c", "d", "e"])] }
        "g" 2 (-2)).2 ["a", "b", "c", "d", "e"] (by decide) (by decide)).2.1
        (by decide) (by decide) (by decide)).1
    have he : ((["a", "b", "c", "d", "e"].drop
        (((["a", "b", "c", "d", "e"].length : Int) + (-2)).toNat)).take ((2 : Int).toNat))
        = ["d", "e"] := by decide
    exact he ▸ h
  · exact ((listGameFrames_window
      { locks := [], lists := [(framesKey "g", ["a", "b", "c", "d", "e"])] }
      "g" 2 1).2 ["a", "b", "c", "d", "e"] (by decide) (by decide)).2.2
      (by decide) (by decide)

/-! ## Tick engine lemmas: positional folds -/

theorem modifyAt_get? {α : Type} :
    ∀ (l : List α) (i j : Nat) (g : α → α),
      (modifyAt l i g).get? j = if i = j then (l.get? j).map g else l.get? j
  | [], i, j, g => by cases i <;> simp [modifyAt]
  | a :: rest, 0, 0, g => by simp [modifyAt]
  | a :: rest, 0, j + 1, g => by simp [modifyAt]
  | a :: rest, i + 1, 0, g => by simp [modifyAt]
  | a :: rest, i + 1, j + 1, g => by
      show (modifyAt rest i g).get? j = if i + 1 = j + 1 then ((rest.get? j).map g) else rest.get? j
      rw [modifyAt_get? rest i j g]
      by_cases h : i = j
      · rw [if_pos h, if_pos (by omega)]
      · rw [if_neg h, if_neg (by omega)]

theorem modifyAt_length {α : Type} :
    ∀ (l : List α) (i : Nat) (g : α → α), (modifyAt l i g).length = l.length
  | [], _, _ => rfl
  | a :: rest, 0, g => rfl
  | a :: rest, i + 1, g => by simp [modifyAt, modifyAt_length rest i g]

theorem foldModify_cons {α β : Type} (l : List α) (u : β) (us : List β)
    (idx : β → Nat) (g : β → α → α) :
    foldModify l (u :: us) idx g = foldModify (modifyAt l (idx u) (g u)) us idx g := rfl

theorem foldModify_append {α β : Type} (l : List α) (us vs : List β)
    (idx : β → Nat) (g : β → α → α) :
    foldModify l (us ++ vs) idx g = foldModify (foldModify l us idx g) vs idx g := by
  simp [foldModify, List.foldl_append]

theorem foldModify_length {α β : Type} :
    ∀ (us : List β) (l : List α) (idx : β → Nat) (g : β → α → α),
      (foldModify l us idx g).length = l.length
  | [], l, idx, g => rfl
  | u :: us, l, idx, g => by
      rw [foldModify_cons, foldModify_length us _ idx g, modifyAt_length]

theorem foldModify_get? {α β : Type} :
    ∀ (us : List β) (l : List α) (idx : β → Nat) (g : β → α → α) (j : Nat),
      (foldModify l us idx g).get? j =
        (l.get? j).map (fun a => us.foldl (fun a u => if idx u = j then g u a else a) a)
  | [], l, idx, g, j => by simp [foldModify]
  | u :: us, l, idx, g, j => by
      rw [foldModify_cons, foldModify_get? us _ idx g j, modifyAt_get?]
      by_cases h : idx u = j
      · rw [if_pos h]
        cases hl : l.get? j
        · rfl
        · simp [h]
      · rw [if_neg h]
        cases hl : l.get? j
        · rfl
        · simp [h]

theorem foldl_guard_filter {α β : Type} (q : β → Prop) [DecidablePred q] :
    ∀ (us : List β) (g : β → α → α) (a : α),
      us.foldl (fun a u => if q u then g u a else a) a =
        (us.filter (fun u => decide (q u))).foldl (fun a u => g u a) a
  | [], g, a => rfl
  | u :: us, g, a => by
      by_cases h : q u
      · simp [List.filter_cons, h, foldl_guard_filter q us g]
      · simp [List.filter_cons, h, foldl_guard_filter q us g]

theorem foldl_preserves {α β γ : Type} (f : α → γ) (step : α → β → α)
    (hp : ∀ a u, f (step a u) = f a) :
    ∀ (us : List β) (a : α), f (us.foldl step a) = f a
  | [], a => rfl
  | u :: us, a => by
      rw [List.foldl_cons, foldl_preserves f step hp us, hp]

/-! ## Tick engine lemmas: per-snake steps -/

theorem snake_move_id (s : Snake) (d : Direction) : (s.move d).id = s.id := by
  unfold Snake.move; split <;> rfl

theorem snake_move_name (s : Snake) (d : Direction) : (s.move d).name = s.name := by
  unfold Snake.move; split <;> rfl

theorem snake_move_health (s : Snake) (d : Direction) : (s.move d).health = s.health := by
  unfold Snake.move; split <;> rfl

theorem snake_move_death (s : Snake) (d : Direction) : (s.move d).death = s.death := by
  unfold Snake.move; split <;> rfl

theorem snake_move_body_length (s : Snake) (d : Direction) (h : s.body ≠ []) :
    (s.move d).body.length = s.body.length + 1 := by
  unfold Snake.move
  split
  next heq => exact absurd heq h
  next hd tl heq => simp

theorem snake_move_empty (s : Snake) (d : Direction) (h : s.body = []) : s.move d = s := by
  unfold Snake.move
  split
  · rfl
  next hd tl heq => rw [h] at heq; exact absurd heq (by simp)

theorem applyMove_id (mv : Option Direction) (s : Snake) : (applyMove mv s).id = s.id := by
  cases mv <;> simp [applyMove, Snake.defaultMove, snake_move_id]

theorem applyMove_name (mv : Option Direction) (s : Snake) : (applyMove mv s).name = s.name := by
  cases mv <;> simp [applyMove, Snake.defaultMove, snake_move_name]

theorem applyMove_health (mv : Option Direction) (s : Snake) :
    (applyMove mv s).health = s.health := by
  cases mv <;> simp [applyMove, Snake.defaultMove, snake_move_health]

theorem applyMove_death (mv : Option Direction) (s : Snake) :
    (applyMove mv s).death = s.death := by
  cases mv <;> simp [applyMove, Snake.defaultMove, snake_move_death]

theorem applyMove_body_length (mv : Option Direction) (s : Snake) (h : s.body ≠ []) :
    (applyMove mv s).body.length = s.body.length + 1 := by
  cases mv <;> simp [applyMove, Snake.defaultMove, snake_move_body_length _ _ h]

theorem applyMove_empty (mv : Option Direction) (s : Snake) (h : s.body = []) :
    applyMove mv s = s := by
  cases mv <;> simp [applyMove, Snake.defaultMove, snake_move_empty _ _ h]

theorem markOne_id (u : Nat × Death) (s : Snake) : (markOne u s).id = s.id := by
  unfold markOne; split <;> rfl

theorem markOne_name (u : Nat × Death) (s : Snake) : (markOne u s).name = s.name := by
  unfold markOne; split <;> rfl

theorem markOne_health (u : Nat × Death) (s : Snake) : (markOne u s).health = s.health := by
  unfold markOne; split <;> rfl

theorem markOne_body (u : Nat × Death) (s : Snake) : (markOne u s).body = s.body := by
  unfold markOne; split <;> rfl

theorem markOne_dead (u : Nat × Death) (s : Snake) (h : s.death ≠ none) :
    markOne u s = s := by
  unfold markOne; rw [if_neg h]

theorem decayOne_id (s : Snake) : (decayOne s).id = s.id := by
  unfold decayOne; split <;> rfl

theorem decayOne_name (s : Snake) : (decayOne s).name = s.name := by
  unfold decayOne; split <;> rfl

theorem decayOne_body (s : Snake) : (decayOne s).body = s.body := by
  unfold decayOne; split <;> rfl

theorem decayOne_death (s : Snake) : (decayOne s).death = s.death := by
  unfold decayOne; split <;> rfl

theorem decayOne_dead (s : Snake) (h : s.death ≠ none) : decayOne s = s := by
  unfold decayOne; rw [if_neg h]

theorem decayOne_alive (s : Snake) (h : s.death = none) :
    decayOne s = { s with health := s.health - 1 } := by
  unfold decayOne; rw [if_pos h]

theorem eatOne_id (food : List Point) (s : Snake) : ((eatOne food s).1).id = s.id := by
  unfold eatOne
  split
  · split
    · split <;> rfl
    · rfl
  · rfl

theorem eatOne_name (food : List Point) (s : Snake) : ((eatOne food s).1).name = s.name := by
  unfold eatOne
  split
  · split
    · split <;> rfl
    · rfl
  · rfl

theorem eatOne_death (food : List Point) (s : Snake) : ((eatOne food s).1).death = s.death := by
  unfold eatOne
  split
  · split
    · split <;> rfl
    · rfl
  · rfl

theorem eatOne_dead (food : List Point) (s : Snake) (h : s.death ≠ none) :
    eatOne food s = (s, []) := by
  unfold eatOne; rw [if_neg h]

/-! ## Tick engine lemmas: death detection and marking -/

theorem filter_idx_map_ne (ds : List Death) (n m : Nat) (h : n ≠ m) :
    (ds.map (fun d => (n, d))).filter (fun u => decide (u.1 = m)) = [] := by
  induction ds with
  | nil => rfl
  | cons d ds ih => simp [List.filter_cons, h, ih]

theorem filter_idx_map_eq (ds : List Death) (n : Nat) :
    (ds.map (fun d => (n, d))).filter (fun u => decide (u.1 = n)) =
      ds.map (fun d => (n, d)) := by
  induction ds with
  | nil => rfl
  | cons d ds ih => simp [List.filter_cons, ih]

theorem checkForDeathAux_filter_lt (w ht : Int) (fr : GameFrame) :
    ∀ (l : List Snake) (n m : Nat), m < n →
      (checkForDeathAux w ht fr n l).filter (fun u => decide (u.1 = m)) = []
  | [], n, m, _ => rfl
  | s :: rest, n, m, hm => by
      rw [checkForDeathAux, List.filter_append,
        checkForDeathAux_filter_lt w ht fr rest (n + 1) m (by omega), List.append_nil]
      split
      · exact filter_idx_map_ne _ _ _ (by omega)
      · rfl

theorem checkForDeathAux_filter (w ht : Int) (fr : GameFrame) :
    ∀ (l : List Snake) (n j : Nat) (s : Snake), l.get? j = some s →
      (checkForDeathAux w ht fr n l).filter (fun u => decide (u.1 = n + j)) =
        (if s.death = none then (deathCauses w ht fr (n + j) s).map (fun d => (n + j, d))
         else [])
  | [], n, j, s, hget => by simp at hget
  | t :: rest, n, 0, s, hget => by
      have hts : t = s := by simpa using hget
      subst hts
      rw [checkForDeathAux, List.filter_append,
        checkForDeathAux_filter_lt w ht fr rest (n + 1) (n + 0) (by omega), List.append_nil]
      simp only [Nat.add_zero]
      by_cases hsd : t.death = none
      · rw [if_pos hsd, filter_idx_map_eq]
      · rw [if_neg hsd]
        rfl
  | t :: rest, n, j + 1, s, hget => by
      have hget2 : rest.get? j = some s := by simpa using hget
      rw [checkForDeathAux, List.filter_append]
      have h1 : ((if t.death = none then (deathCauses w ht fr n t).map (fun d => (n, d))
          else []).filter (fun u => decide (u.1 = n + (j + 1)))) = [] := by
        split
        · exact filter_idx_map_ne _ _ _ (by omega)
        · rfl
      rw [h1, List.nil_append, show n + (j + 1) = (n + 1) + j from by omega]
      exact checkForDeathAux_filter w ht fr rest (n + 1) j s hget2

theorem checkForDeath_filter (w ht : Int) (fr : GameFrame) (j : Nat) (s : Snake)
    (hget : fr.snakes.get? j = some s) :
    (checkForDeath w ht fr).filter (fun u => decide (u.1 = j)) =
      (if s.death = none then (deathCauses w ht fr j s).map (fun d => (j, d)) else []) := by
  have h := checkForDeathAux_filter w ht fr fr.snakes 0 j s hget
  simpa using h

theorem foldl_markOne_dead :
    ∀ (us : List (Nat × Death)) (s : Snake), s.death ≠ none →
      us.foldl (fun a u => markOne u a) s = s
  | [], s, _ => rfl
  | u :: us, s, h => by
      rw [List.foldl_cons, markOne_dead u s h, foldl_markOne_dead us s h]

theorem foldl_markOne_first (ds : List Death) (j : Nat) (d : Death) (s : Snake)
    (hs : s.death = none) :
    ((d :: ds).map (fun d => (j, d))).foldl (fun a u => markOne u a) s =
      { s with death := some d } := by
  rw [List.map_cons, List.foldl_cons]
  have h1 : markOne (j, d) s = { s with death := some d } := by
    unfold markOne
    rw [if_pos hs]
  rw [h1, foldl_markOne_dead _ _ (by simp)]

theorem markFold_dead (dus : List (Nat × Death)) (j : Nat) (s : Snake) (h : s.death ≠ none) :
    dus.foldl (fun a u => if Prod.fst u = j then markOne u a else a) s = s := by
  induction dus with
  | nil => rfl
  | cons u us ih =>
      rw [List.foldl_cons]
      have hstep : (if Prod.fst u = j then markOne u s else s) = s := by
        rw [markOne_dead u s h, ite_self]
      rw [hstep, ih]

theorem moveFold_id (moves : List (Nat × Option Direction)) (j : Nat) (s : Snake) :
    (moves.foldl (fun a u => if Prod.fst u = j then applyMove u.2 a else a) s).id = s.id :=
  foldl_preserves Snake.id _ (fun a u => by
    by_cases h : u.1 = j
    · rw [if_pos h, applyMove_id]
    · rw [if_neg h]) moves s

theorem moveFold_name (moves : List (Nat × Option Direction)) (j : Nat) (s : Snake) :
    (moves.foldl (fun a u => if Prod.fst u = j then applyMove u.2 a else a) s).name = s.name :=
  foldl_preserves Snake.name _ (fun a u => by
    by_cases h : u.1 = j
    · rw [if_pos h, applyMove_name]
    · rw [if_neg h]) moves s

theorem moveFold_health (moves : List (Nat × Option Direction)) (j : Nat) (s : Snake) :
    (moves.foldl (fun a u => if Prod.fst u = j then applyMove u.2 a else a) s).health =
      s.health :=
  foldl_preserves Snake.health _ (fun a u => by
    by_cases h : u.1 = j
    · rw [if_pos h, applyMove_health]
    · rw [if_neg h]) moves s

theorem moveFold_death (moves : List (Nat × Option Direction)) (j : Nat) (s : Snake) :
    (moves.foldl (fun a u => if Prod.fst u = j then applyMove u.2 a else a) s).death =
      s.death :=
  foldl_preserves Snake.death _ (fun a u => by
    by_cases h : u.1 = j
    · rw [if_pos h, applyMove_death]
    · rw [if_neg h]) moves s

theorem markFold_id (dus : List (Nat × Death)) (j : Nat) (s : Snake) :
    (dus.foldl (fun a u => if Prod.fst u = j then markOne u a else a) s).id = s.id :=
  foldl_preserves Snake.id _ (fun a u => by
    by_cases h : u.1 = j
    · rw [if_pos h, markOne_id]
    · rw [if_neg h]) dus s

theorem markFold_name (dus : List (Nat × Death)) (j : Nat) (s : Snake) :
    (dus.foldl (fun a u => if Prod.fst u = j then markOne u a else a) s).name = s.name :=
  foldl_preserves Snake.name _ (fun a u => by
    by_cases h : u.1 = j
    · rw [if_pos h, markOne_name]
    · rw [if_neg h]) dus s

theorem markFold_health (dus : List (Nat × Death)) (j : Nat) (s : Snake) :
    (dus.foldl (fun a u => if Prod.fst u = j then markOne u a else a) s).health = s.health :=
  foldl_preserves Snake.health _ (fun a u => by
    by_cases h : u.1 = j
    · rw [if_pos h, markOne_health]
    · rw [if_neg h]) dus s

theorem markFold_body (dus : List (Nat × Death)) (j : Nat) (s : Snake) :
    (dus.foldl (fun a u => if Prod.fst u = j then markOne u a else a) s).body = s.body :=
  foldl_preserves Snake.body _ (fun a u => by
    by_cases h : u.1 = j
    · rw [if_pos h, markOne_body]
    · rw [if_neg h]) dus s

theorem moveFold_body :
    ∀ (moves : List (Nat × Option Direction)) (j : Nat) (s : Snake), s.body ≠ [] →
      ((moves.foldl (fun a u => if Prod.fst u = j then applyMove u.2 a else a) s).body.length
          = s.body.length + (moves.filter (fun u => decide (u.1 = j))).length ∧
       (moves.foldl (fun a u => if Prod.fst u = j then applyMove u.2 a else a) s).body ≠ [])
  | [], j, s, h => ⟨by simp, h⟩
  | u :: us, j, s, h => by
      rw [List.foldl_cons, List.filter_cons]
      by_cases hu : u.1 = j
      · have hlen : (applyMove u.2 s).body.length = s.body.length + 1 :=
          applyMove_body_length u.2 s h
        have hne : (applyMove u.2 s).body ≠ [] := by
          intro hnil
          rw [hnil] at hlen
          simp at hlen
        obtain ⟨ih1, ih2⟩ := moveFold_body us j (applyMove u.2 s) hne
        rw [if_pos hu]
        refine ⟨?_, ih2⟩
        rw [ih1, hlen]
        have hdt : decide (u.1 = j) = true := by
          rw [decide_eq_true_eq]
          exact hu
        rw [hdt, if_pos rfl, List.length_cons]
        omega
      · rw [if_neg hu]
        obtain ⟨ih1, ih2⟩ := moveFold_body us j s h
        refine ⟨?_, ih2⟩
        rw [ih1]
        have hdt : decide (u.1 = j) = false := by
          simp [hu]
        rw [hdt, if_neg Bool.false_ne_true]

theorem moveFold_empty :
    ∀ (moves : List (Nat × Option Direction)) (j : Nat) (s : Snake), s.body = [] →
      moves.foldl (fun a u => if Prod.fst u = j then applyMove u.2 a else a) s = s
  | [], _, _, _ => rfl
  | u :: us, j, s, h => by
      rw [List.foldl_cons]
      have hstep : (if Prod.fst u = j then applyMove u.2 s else s) = s := by
        rw [applyMove_empty u.2 s h, ite_self]
      rw [hstep, moveFold_empty us j s h]

/-! ## Tick engine lemmas: the pipeline pointwise -/

theorem updateSnakes_get? (snakes : List Snake) (moves : List (Nat × Option Direction))
    (j : Nat) :
    (updateSnakes snakes moves).get? j =
      (snakes.get? j).map
        (fun s => moves.foldl (fun a u => if Prod.fst u = j then applyMove u.2 a else a) s) := by
  rw [updateSnakes, foldModify_get?]

theorem applyDeathUpdates_get? (snakes : List Snake) (dus : List (Nat × Death)) (j : Nat) :
    (applyDeathUpdates snakes dus).get? j =
      (snakes.get? j).map
        (fun s => dus.foldl (fun a u => if Prod.fst u = j then markOne u a else a) s) := by
  rw [applyDeathUpdates, foldModify_get?]

theorem gameTickCore_snakes_get? (game : Game) (f : GameFrame)
    (moves : List (Nat × Option Direction)) (rand : Nat → Nat) (j : Nat) :
    (gameTickCore game f moves rand).1.snakes.get? j =
      (f.snakes.get? j).map (fun s =>
        (eatOne f.food
          (decayOne
            ((checkForDeath game.width game.height
                { turn := f.turn + 1, snakes := updateSnakes f.snakes moves,
                  food := f.food }).foldl
              (fun a u => if Prod.fst u = j then markOne u a else a)
              (moves.foldl (fun a u => if Prod.fst u = j then applyMove u.2 a else a) s)))).1) := by
  simp only [gameTickCore, checkForSnakesEating]
  rw [List.get?_map, reduceHealth, List.get?_map, applyDeathUpdates_get?, updateSnakes_get?]
  cases hs : f.snakes.get? j
  · rfl
  · rfl

theorem deathCauses_starved (w ht : Int) (fr : GameFrame) (j : Nat) (s : Snake)
    (h : s.health ≤ 0) :
    ∃ rest, deathCauses w ht fr j s =
      { turn := fr.turn, cause := DeathCause.starvation } :: rest := by
  unfold deathCauses
  rw [if_pos h]
  exact ⟨_, rfl⟩

theorem eatOne_not_eating (food : List Point) (s : Snake) (hdn : s.death = none)
    (hno : ∀ q ∈ food, s.body.head? ≠ some q) :
    (eatOne food s).1.health = s.health ∧ (eatOne food s).1.death = s.death ∧
    (eatOne food s).1.body = s.body.dropLast ∧ (eatOne food s).2 = [] := by
  unfold eatOne
  rw [if_pos hdn]
  cases hh : s.body.head? with
  | none =>
      have hb : s.body = [] := by
        cases hb2 : s.body
        · rfl
        · rw [hb2] at hh
          simp at hh
      refine ⟨rfl, rfl, ?_, rfl⟩
      rw [hb]
      rfl
  | some p =>
      have hemp : (food.filter (fun f => p == f)).isEmpty = true := by
        have hnil : food.filter (fun f => p == f) = [] := by
          rw [List.filter_eq_nil_iff]
          intro q hq
          simp only [beq_iff_eq]
          intro hpq
          exact hno q hq (by rw [hh, hpq])
        rw [hnil]
        rfl
      dsimp only
      rw [if_pos hemp]
      exact ⟨rfl, rfl, rfl, rfl⟩

theorem eatOne_eating (food : List Point) (s : Snake) (hdn : s.death = none)
    (p : Point) (hp : p ∈ food) (hhd : s.body.head? = some p) :
    (eatOne food s).1.health = 100 ∧ (eatOne food s).1.death = s.death ∧
    (eatOne food s).1.body = s.body := by
  unfold eatOne
  rw [if_pos hdn, hhd]
  have hmem : p ∈ food.filter (fun f => p == f) := by
    rw [List.mem_filter]
    exact ⟨hp, by simp⟩
  have hne : (food.filter (fun f => p == f)).isEmpty = false := by
    cases hf : food.filter (fun f => p == f)
    · rw [hf] at hmem
      simp at hmem
    · rfl
  dsimp only
  rw [hne, if_neg Bool.false_ne_true]
  exact ⟨rfl, rfl, rfl⟩

/-! ## Claims C5-C10 -/

/-- C5 counterexample: on a 5×5 board, a lone snake entering the tick
alive with health 1, moving up and finding no food, is not marked dead
this tick: death detection (health ≤ 0) runs before health decay, so it
ends the tick at health 0 and still alive — not dead with a starvation
cause as the claim states. -/
theorem starvation_tick_counterexample :
    (gameTickCore { id := "g", width := 5, height := 5, snakeTimeout := 200 }
        { turn := 0,
          snakes := [{ id := "s1", name := "one",
                       body := [{ x := 2, y := 2 }, { x := 2, y := 3 }],
                       health := 1, death := none }],
          food := [] }
        [(0, some Direction.up)] (fun _ => 0)).1.snakes =
      [{ id := "s1", name := "one", body := [{ x := 2, y := 1 }, { x := 2, y := 2 }],
         health := 0, death := none }] := by
  decide

/-- C5 (amended): death detection precedes health decay.  (a) A snake
entering the tick alive with health ≤ 0 is marked dead with this turn's
starvation cause — not a collision cause, even if it also collides,
since starvation is detected first and the first recorded cause wins.
(b) A snake entering alive with health 1 for which death detection
reports nothing and whose post-move head lies on no food ends the tick
at health 0 and still alive: health decay of exactly 1 is applied to
snakes still alive after death detection, so the starvation death is
only recorded on the following tick. -/
theorem starvation_semantics :
    (∀ (game : Game) (f : GameFrame) (moves : List (Nat × Option Direction))
        (rand : Nat → Nat) (j : Nat) (s : Snake),
      f.snakes.get? j = some s → s.death = none → s.health ≤ 0 →
      ∃ t, (gameTickCore game f moves rand).1.snakes.get? j = some t ∧
        t.death = some { turn := f.turn + 1, cause := DeathCause.starvation }) ∧
    (∀ (game : Game) (f : GameFrame) (moves : List (Nat × Option Direction))
        (rand : Nat → Nat) (j : Nat) (s s1 : Snake),
      f.snakes.get? j = some s → s.death = none → s.health = 1 →
      (updateSnakes f.snakes moves).get? j = some s1 →
      (∀ u ∈ checkForDeath game.width game.height
          { turn := f.turn + 1, snakes := updateSnakes f.snakes moves, food := f.food },
        u.1 ≠ j) →
      (∀ q ∈ f.food, s1.body.head? ≠ some q) →
      ∃ t, (gameTickCore game f moves rand).1.snakes.get? j = some t ∧
        t.health = 0 ∧ t.death = none) := by
  constructor
  · intro game f moves rand j s hget hd hh
    rw [gameTickCore_snakes_get?, hget, Option.map_some']
    refine ⟨_, rfl, ?_⟩
    have hs1get : (updateSnakes f.snakes moves).get? j =
        some (moves.foldl (fun a u => if Prod.fst u = j then applyMove u.2 a else a) s) := by
      rw [updateSnakes_get?, hget, Option.map_some']
    have hd1 : (moves.foldl (fun a u => if Prod.fst u = j then applyMove u.2 a else a) s).death
        = none := by
      rw [moveFold_death]
      exact hd
    have hh1 : (moves.foldl (fun a u => if Prod.fst u = j then applyMove u.2 a else a) s).health
        ≤ 0 := by
      rw [moveFold_health]
      exact hh
    obtain ⟨rest, hdc⟩ := deathCauses_starved game.width game.height
      { turn := f.turn + 1, snakes := updateSnakes f.snakes moves, food := f.food } j
      (moves.foldl (fun a u => if Prod.fst u = j then applyMove u.2 a else a) s) hh1
    rw [foldl_guard_filter (fun u => Prod.fst u = j),
      checkForDeath_filter _ _ _ j _ hs1get, if_pos hd1, hdc,
      foldl_markOne_first _ _ _ _ hd1, decayOne_dead _ (by simp), eatOne_dead _ _ (by simp)]
  · intro game f moves rand j s s1 hget hd hh hs1get hnodu hnofood
    have hs1 : s1 = moves.foldl (fun a u => if Prod.fst u = j then applyMove u.2 a else a) s := by
      rw [updateSnakes_get?, hget, Option.map_some'] at hs1get
      exact (Option.some.inj hs1get).symm
    subst hs1
    rw [gameTickCore_snakes_get?, hget, Option.map_some']
    have hfilter : (checkForDeath game.width game.height
        { turn := f.turn + 1, snakes := updateSnakes f.snakes moves, food := f.food }).filter
        (fun u => decide (u.1 = j)) = [] := by
      rw [List.filter_eq_nil_iff]
      intro u hu
      simp only [decide_eq_true_eq]
      exact hnodu u hu
    have hbd : (moves.foldl (fun a u => if Prod.fst u = j then applyMove u.2 a else a) s).death
        = none := by
      rw [moveFold_death]
      exact hd
    refine ⟨_, rfl, ?_, ?_⟩
    · rw [foldl_guard_filter (fun u => Prod.fst u = j), hfilter, List.foldl_nil,
        decayOne_alive _ hbd]
      obtain ⟨he1, _, _, _⟩ := eatOne_not_eating f.food
        { moves.foldl (fun a u => if Prod.fst u = j then applyMove u.2 a else a) s with
          health := (moves.foldl (fun a u => if Prod.fst u = j then applyMove u.2 a else a) s).health - 1 }
        hbd hnofood
      rw [he1]
      show (moves.foldl (fun a u => if Prod.fst u = j then applyMove u.2 a else a) s).health - 1 = 0
      rw [moveFold_health, hh]
      decide
    · rw [foldl_guard_filter (fun u => Prod.fst u = j), hfilter, List.foldl_nil,
        decayOne_alive _ hbd]
      obtain ⟨_, he2, _, _⟩ := eatOne_not_eating f.food
        { moves.foldl (fun a u => if Prod.fst u = j then applyMove u.2 a else a) s with
          health := (moves.foldl (fun a u => if Prod.fst u = j then applyMove u.2 a else a) s).health - 1 }
        hbd hnofood
      rw [he2]
      exact hbd

theorem starvation_semantics_witness :
    (∃ t, (gameTickCore { id := "g", width := 5, height := 5, snakeTimeout := 200 }
        { turn := 3,
          snakes := [{ id := "a", name := "a", body := [{ x := 1, y := 1 }, { x := 1, y := 2 }],
                       health := 0, death := none }],
          food := [] } [] (fun _ => 0)).1.snakes.get? 0 = some t ∧
      t.death = some { turn := 3 + 1, cause := DeathCause.starvation }) ∧
    (∃ t, (gameTickCore { id := "g", width := 5, height := 5, snakeTimeout := 200 }
        { turn := 0,
          snakes := [{ id := "b", name := "b", body := [{ x := 2, y := 2 }, { x := 2, y := 3 }],
                       health := 1, death := none }],
          food := [] } [(0, some Direction.up)] (fun _ => 0)).1.snakes.get? 0 = some t ∧
      t.health = 0 ∧ t.death = none) := by
  constructor
  · exact starvation_semantics.1
      { id := "g", width := 5, height := 5, snakeTimeout := 200 }
      { turn := 3,
        snakes := [{ id := "a", name := "a", body := [{ x := 1, y := 1 }, { x := 1, y := 2 }],
                     health := 0, death := none }],
        food := [] } [] (fun _ => 0) 0
      { id := "a", name := "a", body := [{ x := 1, y := 1 }, { x := 1, y := 2 }],
        health := 0, death := none } (by decide) (by decide) (by decide)
  · exact starvation_semantics.2
      { id := "g", width := 5, height := 5, snakeTimeout := 200 }
      { turn := 0,
        snakes := [{ id := "b", name := "b", body := [{ x := 2, y := 2 }, { x := 2, y := 3 }],
                     health := 1, death := none }],
        food := [] } [(0, some Direction.up)] (fun _ => 0) 0
      { id := "b", name := "b", body := [{ x := 2, y := 2 }, { x := 2, y := 3 }],
        health := 1, death := none }
      { id := "b", name := "b",
        body := [{ x := 2, y := 1 }, { x := 2, y := 2 }, { x := 2, y := 3 }],
        health := 1, death := none }
      (by decide) (by decide) (by decide) (by decide) (by decide) (by decide)

/-- C6 counterexample: a lone alive snake of body length 2 with one
gathered move and no food ends the tick with body length 2 (its move
adds a head and the no-eat shrink removes the tail), not length 1 as the
claim's "ends with body length L-1" states. -/
theorem growth_counterexample :
    ((gameTickCore { id := "g", width := 5, height := 5, snakeTimeout := 200 }
        { turn := 0,
          snakes := [{ id := "s1", name := "one",
                       body := [{ x := 2, y := 2 }, { x := 2, y := 3 }],
                       health := 50, death := none }],
          food := [] }
        [(0, some Direction.up)] (fun _ => 0)).1.snakes.map (fun s => s.body.length) = [2]) ∧
    ¬ ((gameTickCore { id := "g", width := 5, height := 5, snakeTimeout := 200 }
        { turn := 0,
          snakes := [{ id := "s1", name := "one",
                       body := [{ x := 2, y := 2 }, { x := 2, y := 3 }],
                       health := 50, death := none }],
          food := [] }
        [(0, some Direction.up)] (fun _ => 0)).1.snakes.map (fun s => s.body.length) = [1]) := by
  decide

/-- C6 (amended): for an alive snake at index j with exactly one gathered
move, a non-empty body of pre-tick length L, and no death detected this
tick: if its post-move head lies on a food point it ends the tick with
health 100 and body length L+1 (head added, no tail removed); if not, it
ends with body length L (head added, tail removed) and health decremented
by exactly 1.  A snake whose body is empty keeps its empty body and loses
1 health (defensive no-op). -/
theorem growth_semantics :
    (∀ (game : Game) (f : GameFrame) (moves : List (Nat × Option Direction))
        (rand : Nat → Nat) (j : Nat) (s s1 : Snake),
      f.snakes.get? j = some s → s.death = none → s.body ≠ [] →
      (moves.filter (fun u => decide (u.1 = j))).length = 1 →
      (updateSnakes f.snakes moves).get? j = some s1 →
      (∀ u ∈ checkForDeath game.width game.height
          { turn := f.turn + 1, snakes := updateSnakes f.snakes moves, food := f.food },
        u.1 ≠ j) →
      (∃ q ∈ f.food, s1.body.head? = some q) →
      ∃ t, (gameTickCore game f moves rand).1.snakes.get? j = some t ∧
        t.health = 100 ∧ t.body.length = s.body.length + 1 ∧ t.death = none) ∧
    (∀ (game : Game) (f : GameFrame) (moves : List (Nat × Option Direction))
        (rand : Nat → Nat) (j : Nat) (s s1 : Snake),
      f.snakes.get? j = some s → s.death = none → s.body ≠ [] →
      (moves.filter (fun u => decide (u.1 = j))).length = 1 →
      (updateSnakes f.snakes moves).get? j = some s1 →
      (∀ u ∈ checkForDeath game.width game.height
          { turn := f.turn + 1, snakes := updateSnakes f.snakes moves, food := f.food },
        u.1 ≠ j) →
      (∀ q ∈ f.food, s1.body.head? ≠ some q) →
      ∃ t, (gameTickCore game f moves rand).1.snakes.get? j = some t ∧
        t.health = s.health - 1 ∧ t.body.length = s.body.length ∧ t.death = none) ∧
    (∀ (game : Game) (f : GameFrame) (moves : List (Nat × Option Direction))
        (rand : Nat → Nat) (j : Nat) (s : Snake),
      f.snakes.get? j = some s → s.death = none → s.body = [] →
      (∀ u ∈ checkForDeath game.width game.height
          { turn := f.turn + 1, snakes := updateSnakes f.snakes moves, food := f.food },
        u.1 ≠ j) →
      ∃ t, (gameTickCore game f moves rand).1.snakes.get? j = some t ∧
        t.health = s.health - 1 ∧ t.body = [] ∧ t.death = none) := by
  refine ⟨?_, ?_, ?_⟩
  · intro game f moves rand j s s1 hget hd hbody hone hs1get hnodu heat
    have hs1 : s1 = moves.foldl (fun a u => if Prod.fst u = j then applyMove u.2 a else a) s := by
      rw [updateSnakes_get?, hget, Option.map_some'] at hs1get
      exact (Option.some.inj hs1get).symm
    subst hs1
    rw [gameTickCore_snakes_get?, hget, Option.map_some']
    have hfilter : (checkForDeath game.width game.height
        { turn := f.turn + 1, snakes := updateSnakes f.snakes moves, food := f.food }).filter
        (fun u => decide (u.1 = j)) = [] := by
      rw [List.filter_eq_nil_iff]
      intro u hu
      simp only [decide_eq_true_eq]
      exact hnodu u hu
    have hbd : (moves.foldl (fun a u => if Prod.fst u = j then applyMove u.2 a else a) s).death
        = none := by
      rw [moveFold_death]
      exact hd
    obtain ⟨hlen, _⟩ := moveFold_body moves j s hbody
    obtain ⟨q, hqf, hqhd⟩ := heat
    refine ⟨_, rfl, ?_, ?_, ?_⟩
    · rw [foldl_guard_filter (fun u => Prod.fst u = j), hfilter, List.foldl_nil,
        decayOne_alive _ hbd]
      obtain ⟨he1, _, _⟩ := eatOne_eating f.food
        { moves.foldl (fun a u => if Prod.fst u = j then applyMove u.2 a else a) s with
          health := (moves.foldl (fun a u => if Prod.fst u = j then applyMove u.2 a else a) s).health - 1 }
        hbd q hqf hqhd
      exact he1
    · rw [foldl_guard_filter (fun u => Prod.fst u = j), hfilter, List.foldl_nil,
        decayOne_alive _ hbd]
      obtain ⟨_, _, he3⟩ := eatOne_eating f.food
        { moves.foldl (fun a u => if Prod.fst u = j then applyMove u.2 a else a) s with
          health := (moves.foldl (fun a u => if Prod.fst u = j then applyMove u.2 a else a) s).health - 1 }
        hbd q hqf hqhd
      rw [he3]
      show (moves.foldl (fun a u => if Prod.fst u = j then applyMove u.2 a else a) s).body.length
          = s.body.length + 1
      rw [hlen, hone]
    · rw [foldl_guard_filter (fun u => Prod.fst u = j), hfilter, List.foldl_nil,
        decayOne_alive _ hbd]
      obtain ⟨_, he2, _⟩ := eatOne_eating f.food
        { moves.foldl (fun a u => if Prod.fst u = j then applyMove u.2 a else a) s with
          health := (moves.foldl (fun a u => if Prod.fst u = j then applyMove u.2 a else a) s).health - 1 }
        hbd q hqf hqhd
      rw [he2]
      exact hbd
  · intro game f moves rand j s s1 hget hd hbody hone hs1get hnodu hnofood
    have hs1 : s1 = moves.foldl (fun a u => if Prod.fst u = j then applyMove u.2 a else a) s := by
      rw [updateSnakes_get?, hget, Option.map_some'] at hs1get
      exact (Option.some.inj hs1get).symm
    subst hs1
    rw [gameTickCore_snakes_get?, hget, Option.map_some']
    have hfilter : (checkForDeath game.width game.height
        { turn := f.turn + 1, snakes := updateSnakes f.snakes moves, food := f.food }).filter
        (fun u => decide (u.1 = j)) = [] := by
      rw [List.filter_eq_nil_iff]
      intro u hu
      simp only [decide_eq_true_eq]
      exact hnodu u hu
    have hbd : (moves.foldl (fun a u => if Prod.fst u = j then applyMove u.2 a else a) s).death
        = none := by
      rw [moveFold_death]
      exact hd
    obtain ⟨hlen, _⟩ := moveFold_body moves j s hbody
    refine ⟨_, rfl, ?_, ?_, ?_⟩
    · rw [foldl_guard_filter (fun u => Prod.fst u = j), hfilter, List.foldl_nil,
        decayOne_alive _ hbd]
      obtain ⟨he1, _, _, _⟩ := eatOne_not_eating f.food
        { moves.foldl (fun a u => if Prod.fst u = j then applyMove u.2 a else a) s with
          health := (moves.foldl (fun a u => if Prod.fst u = j then applyMove u.2 a else a) s).health - 1 }
        hbd hnofood
      rw [he1]
      show (moves.foldl (fun a u => if Prod.fst u = j then applyMove u.2 a else a) s).health - 1
          = s.health - 1
      rw [moveFold_health]
    · rw [foldl_guard_filter (fun u => Prod.fst u = j), hfilter, List.foldl_nil,
        decayOne_alive _ hbd]
      obtain ⟨_, _, he3, _⟩ := eatOne_not_eating f.food
        { moves.foldl (fun a u => if Prod.fst u = j then applyMove u.2 a else a) s with
          health := (moves.foldl (fun a u => if Prod.fst u = j then applyMove u.2 a else a) s).health - 1 }
        hbd hnofood
      rw [he3]
      show (moves.foldl (fun a u => if Prod.fst u = j then applyMove u.2 a else a) s).body.dropLast.length
          = s.body.length
      rw [List.length_dropLast, hlen, hone]
      omega
    · rw [foldl_guard_filter (fun u => Prod.fst u = j), hfilter, List.foldl_nil,
        decayOne_alive _ hbd]
      obtain ⟨_, he2, _, _⟩ := eatOne_not_eating f.food
        { moves.foldl (fun a u => if Prod.fst u = j then applyMove u.2 a else a) s with
          health := (moves.foldl (fun a u => if Prod.fst u = j then applyMove u.2 a else a) s).health - 1 }
        hbd hnofood
      rw [he2]
      exact hbd
  · intro game f moves rand j s hget hd hb hnodu
    rw [gameTickCore_snakes_get?, hget, Option.map_some']
    have hmf : moves.foldl (fun a u => if Prod.fst u = j then applyMove u.2 a else a) s = s :=
      moveFold_empty moves j s hb
    have hfilter : (checkForDeath game.width game.height
        { turn := f.turn + 1, snakes := updateSnakes f.snakes moves, food := f.food }).filter
        (fun u => decide (u.1 = j)) = [] := by
      rw [List.filter_eq_nil_iff]
      intro u hu
      simp only [decide_eq_true_eq]
      exact hnodu u hu
    have hno2 : ∀ q ∈ f.food, ({ s with health := s.health - 1 } : Snake).body.head? ≠ some q := by
      intro q hq
      show s.body.head? ≠ some q
      rw [hb]
      simp
    obtain ⟨he1, he2, he3, _⟩ := eatOne_not_eating f.food
      { s with health := s.health - 1 } hd hno2
    refine ⟨_, rfl, ?_, ?_, ?_⟩
    · rw [foldl_guard_filter (fun u => Prod.fst u = j), hfilter, List.foldl_nil, hmf,
        decayOne_alive _ hd, he1]
    · rw [foldl_guard_filter (fun u => Prod.fst u = j), hfilter, List.foldl_nil, hmf,
        decayOne_alive _ hd, he3]
      show s.body.dropLast = []
      rw [hb]
      rfl
    · rw [foldl_guard_filter (fun u => Prod.fst u = j), hfilter, List.foldl_nil, hmf,
        decayOne_alive _ hd, he2]
      exact hd

theorem growth_semantics_witness :
    (∃ t, (gameTickCore { id := "g", width := 5, height := 5, snakeTimeout := 200 }
        { turn := 0,
          snakes := [{ id := "e", name := "e", body := [{ x := 2, y := 2 }, { x := 2, y := 3 }],
                       health := 50, death := none }],
          food := [{ x := 2, y := 1 }] }
        [(0, some Direction.up)] (fun _ => 0)).1.snakes.get? 0 = some t ∧
      t.health = 100 ∧
      t.body.length = ([{ x := 2, y := 2 }, { x := 2, y := 3 }] : List Point).length + 1 ∧
      t.death = none) ∧
    (∃ t, (gameTickCore { id := "g", width := 5, height := 5, snakeTimeout := 200 }
        { turn := 0,
          snakes := [{ id := "n", name := "n", body := [{ x := 2, y := 2 }, { x := 2, y := 3 }],
                       health := 50, death := none }],
          food := [] }
        [(0, some Direction.up)] (fun _ => 0)).1.snakes.get? 0 = some t ∧
      t.health = 50 - 1 ∧
      t.body.length = ([{ x := 2, y := 2 }, { x := 2, y := 3 }] : List Point).length ∧
      t.death = none) ∧
    (∃ t, (gameTickCore { id := "g", width := 5, height := 5, snakeTimeout := 200 }
        { turn := 0,
          snakes := [{ id := "z", name := "z", body := [], health := 10, death := none }],
          food := [] } [] (fun _ => 0)).1.snakes.get? 0 = some t ∧
      t.health = 10 - 1 ∧ t.body = [] ∧ t.death = none) := by
  refine ⟨?_, ?_, ?_⟩
  · exact growth_semantics.1
      { id := "g", width := 5, height := 5, snakeTimeout := 200 }
      { turn := 0,
        snakes := [{ id := "e", name := "e", body := [{ x := 2, y := 2 }, { x := 2, y := 3 }],
                     health := 50, death := none }],
        food := [{ x := 2, y := 1 }] }
      [(0, some Direction.up)] (fun _ => 0) 0
      { id := "e", name := "e", body := [{ x := 2, y := 2 }, { x := 2, y := 3 }],
        health := 50, death := none }
      { id := "e", name := "e",
        body := [{ x := 2, y := 1 }, { x := 2, y := 2 }, { x := 2, y := 3 }],
        health := 50, death := none }
      (by decide) (by decide) (by decide) (by decide) (by decide) (by decide) (by decide)
  · exact growth_semantics.2.1
      { id := "g", width := 5, height := 5, snakeTimeout := 200 }
      { turn := 0,
        snakes := [{ id := "n", name := "n", body := [{ x := 2, y := 2 }, { x := 2, y := 3 }],
                     health := 50, death := none }],
        food := [] }
      [(0, some Direction.up)] (fun _ => 0) 0
      { id := "n", name := "n", body := [{ x := 2, y := 2 }, { x := 2, y := 3 }],
        health := 50, death := none }
      { id := "n", name := "n",
        body := [{ x := 2, y := 1 }, { x := 2, y := 2 }, { x := 2, y := 3 }],
        health := 50, death := none }
      (by decide) (by decide) (by decide) (by decide) (by decide) (by decide) (by decide)
  · exact growth_semantics.2.2
      { id := "g", width := 5, height := 5, snakeTimeout := 200 }
      { turn := 0,
        snakes := [{ id := "z", name := "z", body := [], health := 10, death := none }],
        food := [] } [] (fun _ => 0) 0
      { id := "z", name := "z", body := [], health := 10, death := none }
      (by decide) (by decide) (by decide) (by decide)

/-- C8 counterexample: the previous frame is not left unchanged.  On a
concrete frame with one snake at health 50, the previous frame observable
after the call differs from the original: its snake (shared with the next
frame) has been moved, decayed to health 49 and shrunk. -/
theorem gameTick_mutates_previous :
    (gameTickCore { id := "g", width := 5, height := 5, snakeTimeout := 200 }
        { turn := 0,
          snakes := [{ id := "s1", name := "one",
                       body := [{ x := 2, y := 2 }, { x := 2, y := 3 }],
                       health := 50, death := none }],
          food := [] }
        [(0, some Direction.up)] (fun _ => 0)).2 ≠
      { turn := 0,
        snakes := [{ id := "s1", name := "one",
                     body := [{ x := 2, y := 2 }, { x := 2, y := 3 }],
                     health := 50, death := none }],
        food := [] } := by
  decide

/-- C8 (amended): `GameTick` on a non-nil previous frame leaves the
previous frame's turn number and food set unchanged, but the next frame
shares the previous frame's snakes slice, so the previous frame's snakes
observed after the call are exactly the next frame's mutated snakes.  A
nil previous frame is an invalid-state error; the next frame's turn is
the previous turn plus 1. -/
theorem gameTick_frame_effect (game : Game) (f : GameFrame)
    (moves : List (Nat × Option Direction)) (rand : Nat → Nat) :
    (GameTick game (some f) moves rand = Except.ok (gameTickCore game f moves rand)) ∧
    (GameTick game none moves rand =
      Except.error "rules: invalid state, previous frame is nil") ∧
    ((gameTickCore game f moves rand).2.turn = f.turn) ∧
    ((gameTickCore game f moves rand).2.food = f.food) ∧
    ((gameTickCore game f moves rand).2.snakes = (gameTickCore game f moves rand).1.snakes) ∧
    ((gameTickCore game f moves rand).1.turn = f.turn + 1) :=
  ⟨rfl, rfl, rfl, rfl, rfl, rfl⟩

/-- C9: a recorded death cause is never overwritten in the same tick and
the dead snake is not further modified.  (a) If after applying the death
updates `dus1` the snake at index j has a recorded cause, applying any
further updates `dus2` of the same tick leaves the snake — cause, health
and body — exactly as it was (first detected cause wins).  (b) A snake
that is dead after the death-marking step of `GameTick` passes the decay,
feeding and shrinking steps unchanged: it reaches the produced frame
identical. -/
theorem death_cause_immutable :
    (∀ (snakes : List Snake) (dus1 dus2 : List (Nat × Death)) (j : Nat) (s : Snake),
      (applyDeathUpdates snakes dus1).get? j = some s → s.death ≠ none →
      (applyDeathUpdates snakes (dus1 ++ dus2)).get? j = some s) ∧
    (∀ (game : Game) (f : GameFrame) (moves : List (Nat × Option Direction))
        (rand : Nat → Nat) (j : Nat) (s : Snake),
      (applyDeathUpdates (updateSnakes f.snakes moves)
          (checkForDeath game.width game.height
            { turn := f.turn + 1, snakes := updateSnakes f.snakes moves,
              food := f.food })).get? j = some s →
      s.death ≠ none →
      (gameTickCore game f moves rand).1.snakes.get? j = some s) := by
  constructor
  · intro snakes dus1 dus2 j s h1 h2
    rw [applyDeathUpdates, foldModify_append, foldModify_get?]
    rw [applyDeathUpdates] at h1
    rw [h1, Option.map_some', markFold_dead dus2 j s h2]
  · intro game f moves rand j s h1 h2
    rw [applyDeathUpdates_get?, updateSnakes_get?] at h1
    rw [gameTickCore_snakes_get?]
    cases hs0 : f.snakes.get? j with
    | none =>
        rw [hs0] at h1
        simp at h1
    | some s0 =>
        rw [hs0] at h1
        simp only [Option.map_some'] at h1
        have hs : (checkForDeath game.width game.height
            { turn := f.turn + 1, snakes := updateSnakes f.snakes moves,
              food := f.food }).foldl
            (fun a u => if Prod.fst u = j then markOne u a else a)
            (moves.foldl (fun a u => if Prod.fst u = j then applyMove u.2 a else a) s0) = s :=
          Option.some.inj h1
        rw [Option.map_some', hs, decayOne_dead s h2, eatOne_dead _ s h2]

theorem death_cause_immutable_witness :
    ((applyDeathUpdates
        [{ id := "a", name := "a", body := [{ x := 1, y := 1 }], health := 5, death := none }]
        ([(0, { turn := 1, cause := DeathCause.wall })] ++
         [(0, { turn := 1, cause := DeathCause.collision })])).get? 0 =
      some { id := "a", name := "a", body := [{ x := 1, y := 1 }], health := 5,
             death := some { turn := 1, cause := DeathCause.wall } }) ∧
    ((gameTickCore { id := "g", width := 5, height := 5, snakeTimeout := 200 }
        { turn := 0,
          snakes := [{ id := "d", name := "d",
                       body := [{ x := 2, y := 2 }, { x := 2, y := 3 }],
                       health := 7,
                       death := some { turn := 0, cause := DeathCause.collision } }],
          food := [] } [] (fun _ => 0)).1.snakes.get? 0 =
      some { id := "d", name := "d", body := [{ x := 2, y := 2 }, { x := 2, y := 3 }],
             health := 7, death := some { turn := 0, cause := DeathCause.collision } }) := by
  constructor
  · exact death_cause_immutable.1
      [{ id := "a", name := "a", body := [{ x := 1, y := 1 }], health := 5, death := none }]
      [(0, { turn := 1, cause := DeathCause.wall })]
      [(0, { turn := 1, cause := DeathCause.collision })] 0
      { id := "a", name := "a", body := [{ x := 1, y := 1 }], health := 5,
        death := some { turn := 1, cause := DeathCause.wall } }
      (by decide) (by decide)
  · exact death_cause_immutable.2
      { id := "g", width := 5, height := 5, snakeTimeout := 200 }
      { turn := 0,
        snakes := [{ id := "d", name := "d",
                     body := [{ x := 2, y := 2 }, { x := 2, y := 3 }],
                     health := 7,
                     death := some { turn := 0, cause := DeathCause.collision } }],
        food := [] } [] (fun _ => 0) 0
      { id := "d", name := "d", body := [{ x := 2, y := 2 }, { x := 2, y := 3 }],
        health := 7, death := some { turn := 0, cause := DeathCause.collision } }
      (by decide) (by decide)

/-- C10: the produced frame lists exactly the previous frame's snakes, in
the same order: same count, same identity (id, name) at every index, and
a snake dead in the previous frame is still listed at its index with its
death cause in the produced frame. -/
theorem frame_same_snakes (game : Game) (f : GameFrame)
    (moves : List (Nat × Option Direction)) (rand : Nat → Nat) :
    ((gameTickCore game f moves rand).1.snakes.length = f.snakes.length) ∧
    (∀ j, ((gameTickCore game f moves rand).1.snakes.get? j).map (fun s => (s.id, s.name)) =
      (f.snakes.get? j).map (fun s => (s.id, s.name))) ∧
    (∀ j s d, f.snakes.get? j = some s → s.death = some d →
      ∃ t, (gameTickCore game f moves rand).1.snakes.get? j = some t ∧
        t.death = some d) := by
  refine ⟨?_, ?_, ?_⟩
  · simp only [gameTickCore, checkForSnakesEating, reduceHealth, List.length_map,
      applyDeathUpdates, updateSnakes, foldModify_length]
  · intro j
    rw [gameTickCore_snakes_get?]
    cases hs : f.snakes.get? j with
    | none => rfl
    | some s =>
        simp only [Option.map_some']
        have h1 : (eatOne f.food
            (decayOne
              ((checkForDeath game.width game.height
                  { turn := f.turn + 1, snakes := updateSnakes f.snakes moves,
                    food := f.food }).foldl
                (fun a u => if Prod.fst u = j then markOne u a else a)
                (moves.foldl (fun a u => if Prod.fst u = j then applyMove u.2 a else a) s)))).1.id
            = s.id := by
          rw [eatOne_id, decayOne_id, markFold_id, moveFold_id]
        have h2 : (eatOne f.food
            (decayOne
              ((checkForDeath game.width game.height
                  { turn := f.turn + 1, snakes := updateSnakes f.snakes moves,
                    food := f.food }).foldl
                (fun a u => if Prod.fst u = j then markOne u a else a)
                (moves.foldl (fun a u => if Prod.fst u = j then applyMove u.2 a else a) s)))).1.name
            = s.name := by
          rw [eatOne_name, decayOne_name, markFold_name, moveFold_name]
        rw [h1, h2]
  · intro j s d hget hd
    rw [gameTickCore_snakes_get?, hget, Option.map_some']
    refine ⟨_, rfl, ?_⟩
    have hd1 : (moves.foldl (fun a u => if Prod.fst u = j then applyMove u.2 a else a) s).death
        = some d := by
      rw [moveFold_death]
      exact hd
    rw [eatOne_death, decayOne_death,
      markFold_dead _ _ _ (by rw [hd1]; simp), hd1]

/-! ## Food bookkeeping lemmas -/

theorem mem_addUniq (acc : List Point) (p x : Point) :
    x ∈ addUniq acc p ↔ x ∈ acc ∨ x = p := by
  unfold addUniq
  split
  next h =>
    have hp : p ∈ acc := by
      rcases List.any_eq_true.mp h with ⟨o, ho, hop⟩
      rw [beq_iff_eq] at hop
      rwa [hop] at ho
    constructor
    · exact Or.inl
    · rintro (hx | rfl)
      · exact hx
      · exact hp
  next h =>
    rw [List.mem_append, List.mem_singleton]

theorem mem_foldl_addUniq :
    ∀ (l acc : List Point) (x : Point), x ∈ l.foldl addUniq acc ↔ x ∈ acc ∨ x ∈ l
  | [], acc, x => by simp
  | p :: rest, acc, x => by
      rw [List.foldl_cons, mem_foldl_addUniq rest (addUniq acc p) x, mem_addUniq,
        List.mem_cons]
      tauto

theorem mem_snakes_foldl :
    ∀ (snakes : List Snake) (acc : List Point) (x : Point),
      x ∈ snakes.foldl (fun acc s => s.body.foldl addUniq acc) acc ↔
        x ∈ acc ∨ ∃ s ∈ snakes, x ∈ s.body
  | [], acc, x => by simp
  | s :: rest, acc, x => by
      rw [List.foldl_cons, mem_snakes_foldl rest _ x, mem_foldl_addUniq]
      constructor
      · rintro ((h | h) | ⟨t, ht, hx⟩)
        · exact Or.inl h
        · exact Or.inr ⟨s, List.mem_cons_self s rest, h⟩
        · exact Or.inr ⟨t, List.mem_cons_of_mem s ht, hx⟩
      · rintro (h | ⟨t, ht, hx⟩)
        · exact Or.inl (Or.inl h)
        · rcases List.mem_cons.mp ht with rfl | ht2
          · exact Or.inl (Or.inr hx)
          · exact Or.inr ⟨t, ht2, hx⟩

theorem mem_getUniqOccupiedPoints (food : List Point) (snakes : List Snake) (x : Point) :
    x ∈ getUniqOccupiedPoints food snakes ↔ x ∈ food ∨ ∃ s ∈ snakes, x ∈ s.body := by
  unfold getUniqOccupiedPoints
  rw [mem_snakes_foldl, mem_foldl_addUniq]
  simp

theorem mem_gridPoints (w ht : Int) (p : Point) :
    p ∈ gridPoints w ht ↔ 0 ≤ p.x ∧ p.x < w ∧ 0 ≤ p.y ∧ p.y < ht := by
  unfold gridPoints
  rw [List.mem_flatMap]
  constructor
  · rintro ⟨x, hx, hmap⟩
    rw [List.mem_map] at hmap
    rcases hmap with ⟨y, hy, rfl⟩
    rw [List.mem_range] at hx hy
    refine ⟨?_, ?_, ?_, ?_⟩ <;> dsimp only <;> omega
  · rintro ⟨h1, h2, h3, h4⟩
    refine ⟨p.x.toNat, ?_, ?_⟩
    · rw [List.mem_range]
      omega
    · rw [List.mem_map]
      refine ⟨p.y.toNat, ?_, ?_⟩
      · rw [List.mem_range]
        omega
      · cases p with
        | mk px py =>
            dsimp only at h1 h3 ⊢
            rw [Point.mk.injEq]
            constructor <;> omega

theorem nodup_gridPoints (w ht : Int) : (gridPoints w ht).Nodup := by
  unfold gridPoints
  rw [List.nodup_flatMap]
  constructor
  · intro x _
    refine List.Nodup.map ?_ (List.nodup_range _)
    intro y1 y2 hy
    have h2 := congrArg Point.y hy
    simpa using h2
  · refine (List.pairwise_lt_range _).imp ?_
    intro a b hab q hqa hqb
    rcases List.mem_map.mp hqa with ⟨y1, _, rfl⟩
    rcases List.mem_map.mp hqb with ⟨y2, _, heq⟩
    have hx := congrArg Point.x heq
    simp only at hx
    omega

theorem mem_getUnoccupiedPoints (w ht : Int) (food : List Point) (snakes : List Snake)
    (p : Point) :
    p ∈ getUnoccupiedPoints w ht food snakes ↔
      (0 ≤ p.x ∧ p.x < w ∧ 0 ≤ p.y ∧ p.y < ht) ∧ p ∉ food ∧
        ¬ ∃ s ∈ snakes, p ∈ s.body := by
  simp only [getUnoccupiedPoints]
  rw [List.mem_filter, mem_gridPoints]
  constructor
  · rintro ⟨hg, hocc⟩
    rw [Bool.not_eq_true'] at hocc
    have hno : ¬ (p ∈ food ∨ ∃ s ∈ snakes, p ∈ s.body) := by
      rw [← mem_getUniqOccupiedPoints food snakes p]
      intro hmem
      have htrue : (getUniqOccupiedPoints food snakes).any (fun o => o == p) = true :=
        List.any_eq_true.mpr ⟨p, hmem, by simp⟩
      rw [htrue] at hocc
      cases hocc
    exact ⟨hg, fun hf => hno (Or.inl hf), fun hs => hno (Or.inr hs)⟩
  · rintro ⟨hg, hnf, hns⟩
    refine ⟨hg, ?_⟩
    have hfalse : (getUniqOccupiedPoints food snakes).any (fun o => o == p) = false := by
      rw [List.any_eq_false]
      intro o ho hop
      rw [beq_iff_eq] at hop
      subst hop
      rcases (mem_getUniqOccupiedPoints food snakes o).mp ho with hf | hs
      · exact hnf hf
      · exact hns hs
    rw [hfalse]
    rfl

theorem nodup_getUnoccupiedPoints (w ht : Int) (food : List Point) (snakes : List Snake) :
    (getUnoccupiedPoints w ht food snakes).Nodup := by
  simp only [getUnoccupiedPoints]
  exact (nodup_gridPoints w ht).filter _

theorem getUnoccupiedPoint_eq (w ht : Int) (food : List Point) (snakes : List Snake)
    (r : Nat) (h : getUnoccupiedPoints w ht food snakes ≠ []) :
    getUnoccupiedPoint w ht food snakes r =
      (getUnoccupiedPoints w ht food snakes).get?
        (r % (getUnoccupiedPoints w ht food snakes).length) := by
  simp only [getUnoccupiedPoint]
  rw [if_neg]
  intro hemp
  exact h (List.isEmpty_iff.mp hemp)

theorem getUnoccupiedPoint_none (w ht : Int) (food : List Point) (snakes : List Snake)
    (r : Nat) (h : getUnoccupiedPoints w ht food snakes = []) :
    getUnoccupiedPoint w ht food snakes r = none := by
  simp only [getUnoccupiedPoint]
  rw [if_pos (List.isEmpty_iff.mpr h)]

theorem getUnoccupiedPoint_some (w ht : Int) (food : List Point) (snakes : List Snake)
    (r : Nat) (h : getUnoccupiedPoints w ht food snakes ≠ []) :
    ∃ q, getUnoccupiedPoint w ht food snakes r = some q ∧
      q ∈ getUnoccupiedPoints w ht food snakes := by
  rw [getUnoccupiedPoint_eq w ht food snakes r h]
  have hlen : 0 < (getUnoccupiedPoints w ht food snakes).length := List.length_pos.mpr h
  have hlt : r % (getUnoccupiedPoints w ht food snakes).length <
      (getUnoccupiedPoints w ht food snakes).length := Nat.mod_lt r hlen
  exact ⟨_, List.get?_eq_get hlt, List.get_mem _ _ hlt⟩

theorem getUnoccupiedPoint_mem (w ht : Int) (food : List Point) (snakes : List Snake)
    (r : Nat) (q : Point) (h : getUnoccupiedPoint w ht food snakes r = some q) :
    q ∈ getUnoccupiedPoints w ht food snakes := by
  simp only [getUnoccupiedPoint] at h
  split at h
  · simp at h
  · exact List.get?_mem h

theorem length_filterMap_all_some {α β : Type} (f : α → Option β) :
    ∀ (l : List α), (∀ a ∈ l, (f a).isSome) → (l.filterMap f).length = l.length
  | [], _ => rfl
  | a :: l, h => by
      cases hfa : f a with
      | none =>
          have := h a (List.mem_cons_self a l)
          rw [hfa] at this
          simp at this
      | some b =>
          rw [List.filterMap_cons_some (h := hfa), List.length_cons, List.length_cons,
            length_filterMap_all_some f l (fun x hx => h x (List.mem_cons_of_mem a hx))]

theorem updateFood_length_pos (w ht : Int) (gf : GameFrame) (toRemove : List Point)
    (rand : Nat → Nat) (hne : getUnoccupiedPoints w ht gf.food gf.aliveSnakes ≠ []) :
    (updateFood w ht gf toRemove rand).length =
      (gf.food.filter (fun f => !toRemove.any (fun r => f == r))).length +
        toRemove.length := by
  simp only [updateFood]
  rw [List.length_append]
  have hall : ∀ k ∈ List.range toRemove.length,
      (getUnoccupiedPoint w ht gf.food gf.aliveSnakes (rand k)).isSome := by
    intro k _
    obtain ⟨q, hq, _⟩ := getUnoccupiedPoint_some w ht gf.food gf.aliveSnakes (rand k) hne
    rw [hq]
    rfl
  rw [length_filterMap_all_some _ _ hall, List.length_range]

theorem updateFood_length_none (w ht : Int) (gf : GameFrame) (toRemove : List Point)
    (rand : Nat → Nat) (hemp : getUnoccupiedPoints w ht gf.food gf.aliveSnakes = []) :
    (updateFood w ht gf toRemove rand).length =
      (gf.food.filter (fun f => !toRemove.any (fun r => f == r))).length := by
  simp only [updateFood]
  rw [List.length_append]
  have hnil : (List.range toRemove.length).filterMap
      (fun k => getUnoccupiedPoint w ht gf.food gf.aliveSnakes (rand k)) = [] := by
    rw [List.filterMap_eq_nil_iff]
    intro k _
    exact getUnoccupiedPoint_none w ht gf.food gf.aliveSnakes (rand k) hemp
  rw [hnil]
  rfl

theorem length_filter_not_beq :
    ∀ (l : List Point) (p : Point),
      (l.filter (fun f => !(f == p))).length = l.length - l.count p
  | [], p => rfl
  | a :: l, p => by
      have hcl : l.count p ≤ l.length := List.count_le_length p l
      rw [List.filter_cons, List.count_cons]
      by_cases hap : a = p
      · have hb : (a == p) = true := by
          rw [beq_iff_eq]
          exact hap
        rw [hb, Bool.not_true, if_neg Bool.false_ne_true, if_pos rfl,
          length_filter_not_beq l p, List.length_cons]
        omega
      · have hb : (a == p) = false := by
          simp [hap]
        rw [hb, Bool.not_false, if_pos rfl, if_neg Bool.false_ne_true, List.length_cons,
          length_filter_not_beq l p, List.length_cons]
        omega

theorem eatOne_eq_eating (food : List Point) (s : Snake) (hdn : s.death = none)
    (h0 : Point) (hh : s.body.head? = some h0)
    (hne : (food.filter (fun f => h0 == f)).isEmpty = false) :
    eatOne food s = ({ s with health := 100 }, food.filter (fun f => h0 == f)) := by
  unfold eatOne
  rw [if_pos hdn, hh]
  dsimp only
  rw [hne, if_neg Bool.false_ne_true]

theorem eatOne_eq_noeat (food : List Point) (s : Snake) (hdn : s.death = none)
    (h0 : Point) (hh : s.body.head? = some h0)
    (hemp : (food.filter (fun f => h0 == f)).isEmpty = true) :
    eatOne food s = ({ s with body := s.body.dropLast }, []) := by
  unfold eatOne
  rw [if_pos hdn, hh]
  dsimp only
  rw [if_pos hemp]

theorem eatOne_eq_nohead (food : List Point) (s : Snake) (hdn : s.death = none)
    (hh : s.body.head? = none) :
    eatOne food s = (s, []) := by
  unfold eatOne
  rw [if_pos hdn, hh]


/-- C7: food bookkeeping of the tick.  (1) Every food point removed by
eating is the head of an alive snake among the post-eating snakes (so an
eaten cell is still occupied when the replacement is chosen).  (2) Every
point of the updated food set is an old food point or lies on an in-grid
cell unoccupied by the old food and by every alive snake's body.  (3) The
candidate list for a replacement has no duplicates, holds exactly the
in-grid cells free of the given food and snake bodies, and the
replacement is the candidate at the random index — a uniformly random
index gives a uniformly random unoccupied cell.  (4) Each removed food
point is replaced by exactly one spawned point when any candidate exists,
and no replacement is spawned when none exists (silent shortfall).  (5)
Removing one food point `p` (one occurrence, `p` being an alive snake's
head) keeps the total food count unchanged when some in-grid cell is
unoccupied by the remaining food and the alive snakes' bodies, and
decrements it by exactly 1 otherwise. -/
theorem food_respawn_semantics :
    (∀ (fr : GameFrame) (p : Point), p ∈ (checkForSnakesEating fr).2 →
      ∃ t ∈ aliveList (checkForSnakesEating fr).1, t.body.head? = some p) ∧
    (∀ (w ht : Int) (gf : GameFrame) (toRemove : List Point) (rand : Nat → Nat) (q : Point),
      q ∈ updateFood w ht gf toRemove rand →
      q ∈ gf.food ∨
      ((0 ≤ q.x ∧ q.x < w ∧ 0 ≤ q.y ∧ q.y < ht) ∧ q ∉ gf.food ∧
        ¬ ∃ s ∈ gf.aliveSnakes, q ∈ s.body)) ∧
    (∀ (w ht : Int) (food : List Point) (snakes : List Snake) (r : Nat),
      (getUnoccupiedPoints w ht food snakes).Nodup ∧
      (∀ p, p ∈ getUnoccupiedPoints w ht food snakes ↔
        (0 ≤ p.x ∧ p.x < w ∧ 0 ≤ p.y ∧ p.y < ht) ∧ p ∉ food ∧
          ¬ ∃ s ∈ snakes, p ∈ s.body) ∧
      (getUnoccupiedPoints w ht food snakes ≠ [] →
        getUnoccupiedPoint w ht food snakes r =
          (getUnoccupiedPoints w ht food snakes).get?
            (r % (getUnoccupiedPoints w ht food snakes).length))) ∧
    (∀ (w ht : Int) (gf : GameFrame) (toRemove : List Point) (rand : Nat → Nat),
      (getUnoccupiedPoints w ht gf.food gf.aliveSnakes ≠ [] →
        (updateFood w ht gf toRemove rand).length =
          (gf.food.filter (fun f => !toRemove.any (fun r => f == r))).length +
            toRemove.length) ∧
      (getUnoccupiedPoints w ht gf.food gf.aliveSnakes = [] →
        (updateFood w ht gf toRemove rand).length =
          (gf.food.filter (fun f => !toRemove.any (fun r => f == r))).length)) ∧
    (∀ (w ht : Int) (gf : GameFrame) (p : Point) (rand : Nat → Nat),
      gf.food.count p = 1 →
      (∃ s ∈ gf.aliveSnakes, s.body.head? = some p) →
      ((∃ c : Point, (0 ≤ c.x ∧ c.x < w ∧ 0 ≤ c.y ∧ c.y < ht) ∧
          c ∉ gf.food.filter (fun f => !(f == p)) ∧
          ¬ ∃ s ∈ gf.aliveSnakes, c ∈ s.body) →
        (updateFood w ht gf [p] rand).length = gf.food.length) ∧
      ((¬ ∃ c : Point, (0 ≤ c.x ∧ c.x < w ∧ 0 ≤ c.y ∧ c.y < ht) ∧
          c ∉ gf.food.filter (fun f => !(f == p)) ∧
          ¬ ∃ s ∈ gf.aliveSnakes, c ∈ s.body) →
        (updateFood w ht gf [p] rand).length = gf.food.length - 1)) := by
  refine ⟨?_, ?_, ?_, ?_, ?_⟩
  · intro fr p hp
    simp only [checkForSnakesEating] at hp ⊢
    rw [List.mem_flatten] at hp
    rcases hp with ⟨l, hl, hpl⟩
    rw [List.mem_map] at hl
    rcases hl with ⟨s, hs, rfl⟩
    by_cases hd : s.death = none
    · cases hh : s.body.head? with
      | none =>
          rw [eatOne_eq_nohead fr.food s hd hh] at hpl
          simp at hpl
      | some h0 =>
          cases hemp : (fr.food.filter (fun f => h0 == f)).isEmpty with
          | true =>
              rw [eatOne_eq_noeat fr.food s hd h0 hh hemp] at hpl
              simp at hpl
          | false =>
              have hE := eatOne_eq_eating fr.food s hd h0 hh hemp
              rw [hE] at hpl
              have hp0 : h0 = p := by
                rcases List.mem_filter.mp hpl with ⟨_, hbeq⟩
                exact beq_iff_eq.mp hbeq
              subst hp0
              refine ⟨(eatOne fr.food s).1, ?_, ?_⟩
              · rw [aliveList, List.mem_filter]
                refine ⟨?_, ?_⟩
                · rw [List.mem_map]
                  exact ⟨s, hs, rfl⟩
                · rw [hE]
                  show s.death.isNone = true
                  rw [hd]
                  rfl
              · rw [hE]
                show s.body.head? = some h0
                exact hh
    · rw [eatOne_dead fr.food s hd] at hpl
      simp at hpl
  · intro w ht gf toRemove rand q hq
    simp only [updateFood] at hq
    rw [List.mem_append] at hq
    rcases hq with hq | hq
    · exact Or.inl (List.mem_filter.mp hq).1
    · rw [List.mem_filterMap] at hq
      rcases hq with ⟨k, _, hk⟩
      have hmem := getUnoccupiedPoint_mem w ht gf.food gf.aliveSnakes (rand k) q hk
      rw [mem_getUnoccupiedPoints] at hmem
      exact Or.inr ⟨hmem.1, hmem.2.1, hmem.2.2⟩
  · intro w ht food snakes r
    exact ⟨nodup_getUnoccupiedPoints w ht food snakes,
      fun p => mem_getUnoccupiedPoints w ht food snakes p,
      fun h => getUnoccupiedPoint_eq w ht food snakes r h⟩
  · intro w ht gf toRemove rand
    exact ⟨fun hne => updateFood_length_pos w ht gf toRemove rand hne,
      fun hemp => updateFood_length_none w ht gf toRemove rand hemp⟩
  · intro w ht gf p rand hcount hhead
    have hkept : gf.food.filter (fun f => !([p] : List Point).any (fun r => f == r)) =
        gf.food.filter (fun f => !(f == p)) := by
      apply List.filter_congr
      intro a _
      simp
    have hkeptlen : (gf.food.filter (fun f => !(f == p))).length = gf.food.length - 1 := by
      rw [length_filter_not_beq, hcount]
    have hlen1 : 1 ≤ gf.food.length := by
      have := List.count_le_length p gf.food
      omega
    obtain ⟨sE, hsE, hsEhead⟩ := hhead
    have hpbody : p ∈ sE.body := by
      cases hb : sE.body with
      | nil =>
          rw [hb] at hsEhead
          simp at hsEhead
      | cons a l =>
          rw [hb] at hsEhead
          simp only [List.head?_cons, Option.some.injEq] at hsEhead
          rw [hsEhead]
          exact List.mem_cons_self p l
    constructor
    · rintro ⟨c, hcg, hckept, hcs⟩
      have hcand : c ∈ getUnoccupiedPoints w ht gf.food gf.aliveSnakes := by
        rw [mem_getUnoccupiedPoints]
        refine ⟨hcg, ?_, hcs⟩
        intro hcf
        by_cases hcp : c = p
        · subst hcp
          exact hcs ⟨sE, hsE, hpbody⟩
        · apply hckept
          rw [List.mem_filter]
          refine ⟨hcf, ?_⟩
          simp [hcp]
      have hne : getUnoccupiedPoints w ht gf.food gf.aliveSnakes ≠ [] :=
        List.ne_nil_of_mem hcand
      rw [updateFood_length_pos w ht gf [p] rand hne, hkept, hkeptlen]
      simp only [List.length_cons, List.length_nil]
      omega
    · intro hno
      have hemp : getUnoccupiedPoints w ht gf.food gf.aliveSnakes = [] := by
        cases hcand : getUnoccupiedPoints w ht gf.food gf.aliveSnakes with
        | nil => rfl
        | cons c rest =>
            exfalso
            have hc : c ∈ getUnoccupiedPoints w ht gf.food gf.aliveSnakes := by
              rw [hcand]
              exact List.mem_cons_self c rest
            rw [mem_getUnoccupiedPoints] at hc
            apply hno
            refine ⟨c, hc.1, ?_, hc.2.2⟩
            intro hck
            exact hc.2.1 (List.mem_filter.mp hck).1
      rw [updateFood_length_none w ht gf [p] rand hemp, hkept, hkeptlen]

theorem food_respawn_semantics_witness :
    (∃ t ∈ aliveList (checkForSnakesEating
        { turn := 1,
          snakes := [{ id := "a", name := "a",
                       body := [{ x := 1, y := 1 }, { x := 1, y := 2 }],
                       health := 100, death := none }],
          food := [{ x := 1, y := 1 }] }).1,
      t.body.head? = some { x := 1, y := 1 }) ∧
    ((({ x := 3, y := 3 } : Point) ∈
        (GameFrame.mk 1
          [Snake.mk "a" "a" [Point.mk 1 1, Point.mk 1 2] 100 none]
          [Point.mk 1 1, Point.mk 3 3]).food) ∨
      ((0 ≤ (Point.mk 3 3).x ∧ (Point.mk 3 3).x < 5 ∧
        0 ≤ (Point.mk 3 3).y ∧ (Point.mk 3 3).y < 5) ∧
       (Point.mk 3 3) ∉
        (GameFrame.mk 1
          [Snake.mk "a" "a" [Point.mk 1 1, Point.mk 1 2] 100 none]
          [Point.mk 1 1, Point.mk 3 3]).food ∧
       ¬ ∃ s ∈ (GameFrame.mk 1
          [Snake.mk "a" "a" [Point.mk 1 1, Point.mk 1 2] 100 none]
          [Point.mk 1 1, Point.mk 3 3]).aliveSnakes,
          (Point.mk 3 3) ∈ s.body)) ∧
    (getUnoccupiedPoint 5 5 [Point.mk 1 1, Point.mk 3 3]
        [Snake.mk "a" "a" [Point.mk 1 1, Point.mk 1 2] 100 none] 7 =
      (getUnoccupiedPoints 5 5 [Point.mk 1 1, Point.mk 3 3]
        [Snake.mk "a" "a" [Point.mk 1 1, Point.mk 1 2] 100 none]).get?
        (7 % (getUnoccupiedPoints 5 5 [Point.mk 1 1, Point.mk 3 3]
          [Snake.mk "a" "a" [Point.mk 1 1, Point.mk 1 2] 100 none]).length)) ∧
    ((updateFood 5 5
        (GameFrame.mk 1
          [Snake.mk "a" "a" [Point.mk 1 1, Point.mk 1 2] 100 none]
          [Point.mk 1 1, Point.mk 3 3])
        [Point.mk 1 1] (fun _ => 0)).length =
      ((GameFrame.mk 1
          [Snake.mk "a" "a" [Point.mk 1 1, Point.mk 1 2] 100 none]
          [Point.mk 1 1, Point.mk 3 3]).food.filter
        (fun f => !([Point.mk 1 1] : List Point).any (fun r => f == r))).length +
        ([Point.mk 1 1] : List Point).length) ∧
    ((updateFood 5 5
        (GameFrame.mk 1
          [Snake.mk "a" "a" [Point.mk 1 1, Point.mk 1 2] 100 none]
          [Point.mk 1 1, Point.mk 3 3])
        [Point.mk 1 1] (fun _ => 0)).length =
      (GameFrame.mk 1
          [Snake.mk "a" "a" [Point.mk 1 1, Point.mk 1 2] 100 none]
          [Point.mk 1 1, Point.mk 3 3]).food.length) := by
  refine ⟨?_, ?_, ?_, ?_, ?_⟩
  · exact food_respawn_semantics.1
      { turn := 1,
        snakes := [{ id := "a", name := "a",
                     body := [{ x := 1, y := 1 }, { x := 1, y := 2 }],
                     health := 100, death := none }],
        food := [{ x := 1, y := 1 }] } { x := 1, y := 1 } (by decide)
  · exact food_respawn_semantics.2.1 5 5
      (GameFrame.mk 1 [Snake.mk "a" "a" [Point.mk 1 1, Point.mk 1 2] 100 none]
        [Point.mk 1 1, Point.mk 3 3])
      [Point.mk 1 1] (fun _ => 0) (Point.mk 3 3) (by decide)
  · exact (food_respawn_semantics.2.2.1 5 5 [Point.mk 1 1, Point.mk 3 3]
      [Snake.mk "a" "a" [Point.mk 1 1, Point.mk 1 2] 100 none] 7).2.2 (by decide)
  · exact (food_respawn_semantics.2.2.2.1 5 5
      (GameFrame.mk 1 [Snake.mk "a" "a" [Point.mk 1 1, Point.mk 1 2] 100 none]
        [Point.mk 1 1, Point.mk 3 3])
      [Point.mk 1 1] (fun _ => 0)).1 (by decide)
  · exact ((food_respawn_semantics.2.2.2.2 5 5
      (GameFrame.mk 1 [Snake.mk "a" "a" [Point.mk 1 1, Point.mk 1 2] 100 none]
        [Point.mk 1 1, Point.mk 3 3])
      (Point.mk 1 1) (fun _ => 0)) (by decide) (by decide)).1
      ⟨Point.mk 0 0, by decide, by decide, by decide⟩

theorem frame_same_snakes_witness :
    ∃ t, (gameTickCore { id := "g", width := 5, height := 5, snakeTimeout := 200 }
        { turn := 0,
          snakes := [{ id := "w", name := "w",
                       body := [{ x := 4, y := 4 }], health := 3,
                       death := some { turn := 0, cause := DeathCause.wall } }],
          food := [] } [] (fun _ => 0)).1.snakes.get? 0 = some t ∧
      t.death = some { turn := 0, cause := DeathCause.wall } := by
  exact (frame_same_snakes { id := "g", width := 5, height := 5, snakeTimeout := 200 }
      { turn := 0,
        snakes := [{ id := "w", name := "w",
                     body := [{ x := 4, y := 4 }], health := 3,
                     death := some { turn := 0, cause := DeathCause.wall } }],
        food := [] } [] (fun _ => 0)).2.2 0
      { id := "w", name := "w", body := [{ x := 4, y := 4 }], health := 3,
        death := some { turn := 0, cause := DeathCause.wall } }
      { turn := 0, cause := DeathCause.wall } (by decide) (by decide)
